import Mathlib

/-!
Verification development for the `Dev-center` webhook proxy functions
(`webhookconnexion.js`): two Netlify request handlers (a "connection"
notifier and a "review" notifier), each a four-stage pipeline of origin
guard, fixed-window per-IP rate limiter, payload sanitizer, and forwarder.

The JavaScript is shallowly embedded: JSON/JS values become the inductive
type `JsVal`; JS strings are Lean `String`s operated on as code-point lists
(`String.data`), so `slice`, `length` and `trim` are `List.take`,
`List.length` and `dropWhile` on both ends (faithful for the payloads in
question, which live in the BMP); JS numbers are modelled as `Int` (every
value the handlers compare or forward numerically is integral); the clock
(`Date.now()` in milliseconds and `new Date().toISOString()`) and the
environment variables are explicit parameters; the outbound `fetch` is a
`FetchOutcome` parameter recording whether the downstream call succeeds,
completes with a non-ok status, or throws.  Property access on `null` or
`undefined` throws a `TypeError` in JavaScript; an exception escaping the
handler (outside its `try` blocks) is modelled by the `crash` result.
-/

set_option autoImplicit false
set_option maxRecDepth 20000

namespace DevCenter

/-- JavaScript values as produced by `JSON.parse` plus `undefined`
(the result of reading a missing property). -/
inductive JsVal where
  | undefined
  | null
  | bool (b : Bool)
  | num (n : Int)
  | str (s : String)
  | arr (elems : List JsVal)
  | obj (props : List (String × JsVal))

/-- JavaScript truthiness: `undefined`, `null`, `false`, `0` and `""` are
falsy; every other value (including `[]` and the empty object) is truthy. -/
def jsTruthy : JsVal → Bool
  | .undefined => false
  | .null => false
  | .bool b => b
  | .num n => n != 0
  | .str s => s != ""
  | .arr _ => true
  | .obj _ => true

/-- `Array.isArray`. -/
def jsIsArray : JsVal → Bool
  | .arr _ => true
  | _ => false

/-- Whether a value is `null` or `undefined` (property access and
destructuring on such a value throw a `TypeError`). -/
def isNullish : JsVal → Bool
  | .null => true
  | .undefined => true
  | _ => false

/-- First binding of a key in a JS object's property list. -/
def lookupProp : List (String × JsVal) → String → JsVal
  | [], _ => .undefined
  | (k, v) :: rest, key => if k = key then v else lookupProp rest key

/-- Property access `v.key`: throws a `TypeError` (modelled as `.error ()`)
when the receiver is `null` or `undefined`; primitives are boxed and have no
own properties, so the access yields `undefined`. -/
def getProp (v : JsVal) (key : String) : Except Unit JsVal :=
  match v with
  | .undefined => .error ()
  | .null => .error ()
  | .obj props => .ok (lookupProp props key)
  | _ => .ok .undefined

/-- Optional-chaining access `v?.key`: `null`/`undefined` receivers give
`undefined` instead of throwing.  Also used for destructuring a receiver
already known not to be `null`/`undefined`. -/
def getPropOpt (v : JsVal) (key : String) : JsVal :=
  match v with
  | .undefined => .undefined
  | .null => .undefined
  | .obj props => lookupProp props key
  | _ => .undefined

mutual

/-- JavaScript `String(v)` conversion. -/
def jsToString : JsVal → String
  | .undefined => "undefined"
  | .null => "null"
  | .bool b => if b then "true" else "false"
  | .num n => toString n
  | .str s => s
  | .arr elems => joinComma elems
  | .obj _ => "[object Object]"
termination_by structural v => v

/-- `Array.prototype.join(",")` used by array-to-string conversion;
`null` and `undefined` elements become the empty string inside `join`. -/
def joinComma : List JsVal → String
  | [] => ""
  | [v] => if isNullish v then "" else jsToString v
  | v :: rest =>
    (if isNullish v then "" else jsToString v) ++ "," ++ joinComma rest
termination_by structural l => l

end

/-- Whitespace for the purposes of JS `trim` and `parseInt` (the common
ASCII whitespace characters; the full Unicode set is not needed for the
payloads considered). -/
def jsIsWs (c : Char) : Bool :=
  c = ' ' || c = '\t' || c = '\n' || c = '\r' || c = '\x0b' || c = '\x0c'

/-- JS `String.prototype.slice(0, n)` on code points. -/
def jsSlice (s : String) (n : Nat) : String :=
  ⟨s.data.take n⟩

/-- JS `String.prototype.length` (code points; the payload fields in the
claims are BMP, where this agrees with UTF-16 length). -/
def jsLen (s : String) : Nat :=
  s.data.length

/-- JS `String.prototype.trim`. -/
def jsTrim (s : String) : String :=
  ⟨((s.data.dropWhile jsIsWs).reverse.dropWhile jsIsWs).reverse⟩

/-- Decimal value of a digit list (most significant first). -/
def natOfDigits (ds : List Char) : Nat :=
  ds.foldl (fun acc c => acc * 10 + (c.toNat - '0'.toNat)) 0

/-- Hexadecimal digit predicate for `parseInt`'s `0x` prefix handling. -/
def jsIsHexDigit (c : Char) : Bool :=
  c.isDigit || ('a' ≤ c && c ≤ 'f') || ('A' ≤ c && c ≤ 'F')

/-- Hexadecimal value of one digit. -/
def hexDigitVal (c : Char) : Nat :=
  if c.isDigit then c.toNat - '0'.toNat
  else if 'a' ≤ c && c ≤ 'f' then c.toNat - 'a'.toNat + 10
  else c.toNat - 'A'.toNat + 10

/-- Hexadecimal value of a digit list (most significant first). -/
def natOfHexDigits (ds : List Char) : Nat :=
  ds.foldl (fun acc c => acc * 16 + hexDigitVal c) 0

/-- JS `parseInt(v)`: convert the argument to a string, skip leading
whitespace, read an optional sign, recognise a `0x`/`0X` prefix as
hexadecimal, and parse the longest prefix of digits; `none` models `NaN`. -/
def parseIntJs (v : JsVal) : Option Int :=
  let t := (jsToString v).data.dropWhile jsIsWs
  let sign : Int := match t with
    | '-' :: _ => -1
    | _ => 1
  let t1 := match t with
    | '-' :: r => r
    | '+' :: r => r
    | _ => t
  match t1 with
  | '0' :: x :: r =>
    if x = 'x' || x = 'X' then
      let hs := r.takeWhile jsIsHexDigit
      if hs.isEmpty then none else some (sign * (natOfHexDigits hs : Int))
    else
      let ds := t1.takeWhile Char.isDigit
      if ds.isEmpty then none else some (sign * (natOfDigits ds : Int))
  | _ =>
    let ds := t1.takeWhile Char.isDigit
    if ds.isEmpty then none else some (sign * (natOfDigits ds : Int))

/-- The test `/^\d{15,20}$/.test(s)`: 15 to 20 characters, all decimal
digits. -/
def matchesUserIdPattern (s : String) : Bool :=
  decide (15 ≤ s.data.length) && decide (s.data.length ≤ 20)
    && s.data.all Char.isDigit

/-- `'⭐'.repeat(n)`. -/
def starRepeat (n : Nat) : String :=
  ⟨List.replicate n '⭐'⟩

/-- The JS `a || b` defaulting idiom on values. -/
def jsOr (a b : JsVal) : JsVal :=
  if jsTruthy a then a else b

/-! ### Rate limiter (`isRateLimited`, both handlers) -/

/-- One value of `rateLimitMap`: `{ count, start }`. -/
structure RateEntry where
  count : Nat
  start : Int
deriving DecidableEq

/-- The in-memory `rateLimitMap`, as an association list keyed by IP. -/
abbrev RateMap := List (String × RateEntry)

/-- `rateLimitMap.get(ip)`. -/
def rlGet : RateMap → String → Option RateEntry
  | [], _ => none
  | (k, e) :: rest, ip => if k = ip then some e else rlGet rest ip

/-- `rateLimitMap.set(ip, e)`: replace the binding in place, or append. -/
def rlSet : RateMap → String → RateEntry → RateMap
  | [], ip, e => [(ip, e)]
  | (k, e0) :: rest, ip, e =>
    if k = ip then (k, e) :: rest else (k, e0) :: rlSet rest ip e

/-- `isRateLimited(ip)` at time `now`, parameterised by the handler's
window length and maximum count; returns the decision together with the
updated map.  Mirrors the source: an absent entry defaults to
`{count: 0, start: now}`; an expired entry (`now - start > windowMs`,
strict) is reset to `{count: 1, start: now}` and the call is admitted;
otherwise a full counter denies and an unfilled counter is incremented. -/
def isRateLimited (windowMs : Int) (maxCount : Nat) (m : RateMap)
    (ip : String) (now : Int) : Bool × RateMap :=
  let entry := (rlGet m ip).getD ⟨0, now⟩
  if now - entry.start > windowMs then
    (false, rlSet m ip ⟨1, now⟩)
  else if maxCount ≤ entry.count then
    (true, m)
  else
    (false, rlSet m ip ⟨entry.count + 1, entry.start⟩)

/-- `RATE_LIMIT_WINDOW_MS` of the connection handler (1 minute). -/
def connWindowMs : Int := 60 * 1000

/-- `RATE_LIMIT_MAX` of the connection handler. -/
def connRateMax : Nat := 5

/-- `RATE_LIMIT_WINDOW_MS` of the review handler (5 minutes). -/
def reviewWindowMs : Int := 5 * 60 * 1000

/-- `RATE_LIMIT_MAX` of the review handler. -/
def reviewRateMax : Nat := 2

/-! ### Request and response model -/

/-- `ALLOWED_ORIGIN`, identical in both handlers. -/
def ALLOWED_ORIGIN : String := "https://devcenter.vyral-studio.fr"

/-- The parts of the Netlify `event` the handlers read.  `body` is the
result of `JSON.parse(event.body)`: `some v` when parsing succeeds with
value `v`, `none` when it throws (caught by the handlers). -/
structure Event where
  origin : Option String
  httpMethod : String
  xForwardedFor : Option String
  body : Option JsVal

/-- A handler response: status code, body, and the
`Access-Control-Allow-Origin` header when present (the only
response header the claims mention). -/
structure Response where
  statusCode : Nat
  body : String
  allowOrigin : Option String
deriving DecidableEq

/-- Outcome of the single outbound `fetch` to the Discord webhook. -/
inductive FetchOutcome where
  | ok
  | notOk
  | throws
deriving DecidableEq

/-- Result of one handler invocation over payload type `P`: either a
response together with the rate-limit map after the call and the payload
handed to `fetch` (`none` when no outbound call was made), or an uncaught
exception escaping the handler (`crash`), which still records the map. -/
inductive HResult (P : Type) where
  | response (r : Response) (m : RateMap) (forwarded : Option P)
  | crash (m : RateMap)
deriving DecidableEq

/-- Rate-limit key: first comma-separated segment of `x-forwarded-for`,
or `"unknown"` when the header is absent or the segment empty. -/
def ipOf (xForwardedFor : Option String) : String :=
  match xForwardedFor with
  | none => "unknown"
  | some s =>
    let seg : String := ⟨s.data.takeWhile (fun c => c ≠ ',')⟩
    if seg = "" then "unknown" else seg

/-! ### Connection handler payload sanitization -/

/-- One sanitized `fields` entry. -/
structure SafeField where
  name : String
  value : String
  inline : Bool
deriving DecidableEq

/-- One sanitized embed of the connection handler's `safePayload`.
`thumbnail = none` models the JS `undefined`, which `JSON.stringify`
omits from the forwarded body. -/
structure SafeEmbed where
  title : String
  description : String
  color : Int
  thumbnail : Option String
  fields : List SafeField
  timestamp : String
deriving DecidableEq

/-- The connection handler's `safePayload`. -/
structure ConnPayload where
  embeds : List SafeEmbed
deriving DecidableEq

/-- Left-to-right effectful map: JavaScript's `Array.prototype.map`
with a callback that may throw (the first `TypeError` propagates). -/
def mapExcept {A B : Type} (f : A -> Except Unit B) : List A -> Except Unit (List B)
  | [] => .ok []
  | a :: l => do
    let b <- f a
    let bs <- mapExcept f l
    .ok (b :: bs)

/-- Sanitization of one `fields` entry: `f.name`/`f.value` stringified with
empty-string default and sliced, `inline` coerced to boolean.  Throws
(propagated `TypeError`) when the entry is `null`/`undefined`. -/
def sanitizeField (f : JsVal) : Except Unit SafeField := do
  let n ← getProp f "name"
  let v ← getProp f "value"
  let i ← getProp f "inline"
  .ok { name := jsSlice (jsToString (jsOr n (.str ""))) 256,
        value := jsSlice (jsToString (jsOr v (.str ""))) 1024,
        inline := jsTruthy i }

/-- `Array.isArray(embed.fields) ? embed.fields.slice(0, 25).map(...) : []`:
the first 25 field entries sanitized when `fields` is an array, the empty
array otherwise. -/
def sanitizeFields (f : JsVal) : Except Unit (List SafeField) :=
  match f with
  | .arr xs => mapExcept sanitizeField (xs.take 25)
  | _ => .ok []

/-- Sanitization of one embed (connection handler), stamped with the
server-generated `new Date().toISOString()` value `nowIso`.  Throws when
the embed or one of its first 25 field entries is `null`/`undefined`. -/
def sanitizeEmbed (nowIso : String) (e : JsVal) : Except Unit SafeEmbed := do
  let t ← getProp e "title"
  let d ← getProp e "description"
  let c ← getProp e "color"
  let th ← getProp e "thumbnail"
  let thumbUrl := getPropOpt th "url"
  let f ← getProp e "fields"
  let fields ← sanitizeFields f
  .ok { title := jsSlice (jsToString (jsOr t (.str ""))) 256,
        description := jsSlice (jsToString (jsOr d (.str ""))) 4096,
        color := match c with
          | .num n => n
          | _ => 0,
        thumbnail :=
          if jsTruthy thumbUrl then some (jsSlice (jsToString thumbUrl) 512)
          else none,
        fields := fields,
        timestamp := nowIso }

/-- `payload.embeds.map(embed => ...)` building the connection handler's
`safePayload` (only reached when `embeds` is an array). -/
def connectionSanitize (nowIso : String) (embedsVal : JsVal) :
    Except Unit ConnPayload :=
  match embedsVal with
  | .arr xs => (mapExcept (sanitizeEmbed nowIso) xs).map ConnPayload.mk
  | _ => .ok ⟨[]⟩

/-- Body of the connection handler's 429 response,
`JSON.stringify({error: 'Too many requests'})`. -/
def connTooManyBody : String := "\x7b\"error\":\"Too many requests\"\x7d"

/-- Body of the 200 response, `JSON.stringify({success: true})`. -/
def successBody : String := "\x7b\"success\":true\x7d"

/-- The connection handler (`exports.handler` of the connection proxy),
with the clock, the ISO timestamp, `process.env.WEBHOOK_CONNEXIONS`
(`none` = unset) and the `fetch` outcome as explicit parameters. -/
def connectionHandler (now : Int) (nowIso : String)
    (webhookUrl : Option String) (fetch : FetchOutcome)
    (m : RateMap) (ev : Event) : HResult ConnPayload :=
  let origin := ev.origin.getD ""
  if origin ≠ ALLOWED_ORIGIN then
    .response ⟨403, "Forbidden", none⟩ m none
  else if ev.httpMethod ≠ "POST" then
    .response ⟨405, "Method Not Allowed", none⟩ m none
  else
    match isRateLimited connWindowMs connRateMax m (ipOf ev.xForwardedFor) now with
    | (true, m1) => .response ⟨429, connTooManyBody, none⟩ m1 none
    | (false, m1) =>
      match ev.body with
      | none => .response ⟨400, "Invalid JSON", none⟩ m1 none
      | some payload =>
        match getProp payload "embeds" with
        | .error _ => .crash m1
        | .ok embedsVal =>
          if ¬ jsTruthy embedsVal ∨ ¬ jsIsArray embedsVal then
            .response ⟨400, "Invalid payload structure", none⟩ m1 none
          else
            match connectionSanitize nowIso embedsVal with
            | .error _ => .crash m1
            | .ok safePayload =>
              if (webhookUrl.getD "") = "" then
                .response ⟨500, "Webhook not configured", none⟩ m1 none
              else
                match fetch with
                | .notOk =>
                  .response ⟨502, "Discord webhook failed", none⟩ m1 (some safePayload)
                | .throws =>
                  .response ⟨502, "Network error", none⟩ m1 (some safePayload)
                | .ok =>
                  .response ⟨200, successBody, some ALLOWED_ORIGIN⟩ m1 (some safePayload)

/-! ### Review handler -/

/-- The single embed of the review handler's `safePayload` (it has no
`description` property). -/
structure ReviewEmbed where
  title : String
  color : Int
  thumbnail : Option String
  fields : List SafeField
  timestamp : String
deriving DecidableEq

/-- The review handler's `safePayload`: a content banner and one embed. -/
structure ReviewPayload where
  content : String
  embeds : List ReviewEmbed
deriving DecidableEq

/-- Body of the review handler's 429 response. -/
def reviewTooManyBody : String :=
  "\x7b\"error\":\"Trop d\x27avis envoyés. Attendez quelques minutes.\"\x7d"

/-- The fixed-shape notification payload the review handler builds once
every validation has passed. -/
def reviewBuildPayload (nowIso : String) (username userId avatarUrl : JsVal)
    (safeRating : Int) (safeComment : String) : ReviewPayload :=
  { content := "⭐ **Nouvel avis reçu !**",
    embeds := [{
      title := "💬 Avis Client",
      color := 16777215,
      thumbnail :=
        if jsTruthy avatarUrl then some (jsSlice (jsToString avatarUrl) 512)
        else none,
      fields := [
        ⟨"Utilisateur", jsSlice (jsToString username) 100, true⟩,
        ⟨"ID", jsSlice (jsToString userId) 20, true⟩,
        ⟨"Note", starRepeat safeRating.toNat, false⟩,
        ⟨"Commentaire", safeComment, false⟩],
      timestamp := nowIso }] }

/-- The review handler (`exports.handler` of the review proxy), with the
clock, the ISO timestamp, `process.env.WEBHOOK_AVIS` and the `fetch`
outcome as explicit parameters.  Destructuring
`const { username, userId, rating, comment, avatarUrl } = payload` throws
when the parsed body is `null` (modelled by `crash`). -/
def reviewHandler (now : Int) (nowIso : String)
    (webhookUrl : Option String) (fetch : FetchOutcome)
    (m : RateMap) (ev : Event) : HResult ReviewPayload :=
  let origin := ev.origin.getD ""
  if origin ≠ ALLOWED_ORIGIN then
    .response ⟨403, "Forbidden", none⟩ m none
  else if ev.httpMethod ≠ "POST" then
    .response ⟨405, "Method Not Allowed", none⟩ m none
  else
    match isRateLimited reviewWindowMs reviewRateMax m (ipOf ev.xForwardedFor) now with
    | (true, m1) => .response ⟨429, reviewTooManyBody, none⟩ m1 none
    | (false, m1) =>
      match ev.body with
      | none => .response ⟨400, "Invalid JSON", none⟩ m1 none
      | some payload =>
        if isNullish payload then .crash m1
        else
          let username := getPropOpt payload "username"
          let userId := getPropOpt payload "userId"
          let rating := getPropOpt payload "rating"
          let comment := getPropOpt payload "comment"
          let avatarUrl := getPropOpt payload "avatarUrl"
          if ¬ (jsTruthy username ∧ jsTruthy userId ∧ jsTruthy rating ∧ jsTruthy comment) then
            .response ⟨400, "Missing fields", none⟩ m1 none
          else
            match parseIntJs rating with
            | none => .response ⟨400, "Invalid rating", none⟩ m1 none
            | some safeRating =>
              if safeRating < 1 ∨ 5 < safeRating then
                .response ⟨400, "Invalid rating", none⟩ m1 none
              else
                let safeComment := jsSlice (jsToString comment) 500
                if jsLen (jsTrim safeComment) < 5 then
                  .response ⟨400, "Comment too short", none⟩ m1 none
                else if ¬ matchesUserIdPattern (jsToString userId) then
                  .response ⟨400, "Invalid user ID", none⟩ m1 none
                else if (webhookUrl.getD "") = "" then
                  .response ⟨500, "Webhook not configured", none⟩ m1 none
                else
                  let safePayload :=
                    reviewBuildPayload nowIso username userId avatarUrl safeRating safeComment
                  match fetch with
                  | .notOk =>
                    .response ⟨502, "Discord webhook failed", none⟩ m1 (some safePayload)
                  | .throws =>
                    .response ⟨502, "Network error", none⟩ m1 (some safePayload)
                  | .ok =>
                    .response ⟨200, successBody, some ALLOWED_ORIGIN⟩ m1 (some safePayload)

/-! ### Test harness definitions -/

/-- Iterate the admission check for one IP over a list of request times,
collecting the deny decisions (in order) and the final map. -/
def runRequests (w : Int) (mx : Nat) (ip : String) :
    RateMap → List Int → List Bool × RateMap
  | m, [] => ([], m)
  | m, t :: ts =>
    let step := isRateLimited w mx m ip t
    let rest := runRequests w mx ip step.2 ts
    (step.1 :: rest.1, rest.2)

/-- A request with the allow-listed origin, `POST` method and a fixed
client IP, used as the concrete input of witnesses. -/
def goodEvent (b : Option JsVal) : Event :=
  { origin := some ALLOWED_ORIGIN, httpMethod := "POST",
    xForwardedFor := some "9.9.9.9", body := b }

/-- A concrete review body whose rating field is the given value and
whose other fields are valid. -/
def reviewBodyWith (rating : JsVal) : JsVal :=
  .obj [("username", .str "Alice"), ("userId", .str "123456789012345"),
        ("rating", rating), ("comment", .str "Great service!"),
        ("avatarUrl", .str "https://cdn.example/a.png")]

/-! ### Helper lemmas -/

theorem jsLen_jsSlice_le (s : String) (n : Nat) : jsLen (jsSlice s n) ≤ n := by
  simp [jsLen, jsSlice, List.length_take]

theorem jsLen_starRepeat (n : Nat) : jsLen (starRepeat n) = n := by
  simp [jsLen, starRepeat]

theorem jsSlice_empty (n : Nat) : jsSlice "" n = "" := by
  simp only [jsSlice]
  rw [List.take_nil]

theorem rlGet_rlSet_self (m : RateMap) (ip : String) (e : RateEntry) :
    rlGet (rlSet m ip e) ip = some e := by
  induction m with
  | nil => simp [rlSet, rlGet]
  | cons kv rest ih =>
    obtain ⟨k, e0⟩ := kv
    by_cases hk : k = ip <;> simp [rlSet, rlGet, hk, ih]

theorem getPropOpt_of_getProp {v : JsVal} {k : String} {w : JsVal}
    (h : getProp v k = .ok w) : getPropOpt v k = w := by
  cases v <;> simp_all [getProp, getPropOpt]

/-! ### Claim theorems -/

/-- C7 (origin guard): a request whose `origin` header (defaulted to the
empty string when absent) differs from `ALLOWED_ORIGIN` gets an immediate
403 "Forbidden" from both handlers, whatever the method, body, clock,
configuration or downstream behaviour; the rate-limit map is returned
unchanged and no payload is handed to `fetch`. -/
theorem origin_guard (now : Int) (nowIso : String) (url : Option String)
    (fetch : FetchOutcome) (m : RateMap) (ev : Event)
    (h : ev.origin.getD "" ≠ ALLOWED_ORIGIN) :
    connectionHandler now nowIso url fetch m ev =
      .response ⟨403, "Forbidden", none⟩ m none ∧
    reviewHandler now nowIso url fetch m ev =
      .response ⟨403, "Forbidden", none⟩ m none := by
  constructor <;> simp [connectionHandler, reviewHandler, h]

/-- Witness for C7 at a concrete request with an absent origin header. -/
theorem origin_guard_witness :
    connectionHandler 0 "T" none .ok [] ⟨none, "GET", none, none⟩ =
      .response ⟨403, "Forbidden", none⟩ [] none ∧
    reviewHandler 0 "T" none .ok [] ⟨none, "GET", none, none⟩ =
      .response ⟨403, "Forbidden", none⟩ [] none :=
  origin_guard 0 "T" none .ok [] ⟨none, "GET", none, none⟩ (by decide)

/-- C9 (rate-limit deny atomicity): when the stored entry for the
request's IP is inside the current window with a full counter, the
admission check denies and returns the map unchanged (same count, same
window start), a repeated check at any later in-window instant observes
the identical state and denies again, and each handler answers 429 with
its JSON error body, forwarding nothing. -/
theorem rate_limit_deny_atomic (now now2 : Int) (nowIso : String)
    (url : Option String) (fetch : FetchOutcome) (m : RateMap) (ev : Event)
    (e : RateEntry)
    (horigin : ev.origin.getD "" = ALLOWED_ORIGIN)
    (hmethod : ev.httpMethod = "POST")
    (hget : rlGet m (ipOf ev.xForwardedFor) = some e) :
    (∀ w mx, now - e.start ≤ w → mx ≤ e.count →
      isRateLimited w mx m (ipOf ev.xForwardedFor) now = (true, m)) ∧
    (∀ w mx, now - e.start ≤ w → now2 - e.start ≤ w → mx ≤ e.count →
      isRateLimited w mx m (ipOf ev.xForwardedFor) now2 =
        isRateLimited w mx m (ipOf ev.xForwardedFor) now) ∧
    (now - e.start ≤ connWindowMs → connRateMax ≤ e.count →
      connectionHandler now nowIso url fetch m ev =
        .response ⟨429, connTooManyBody, none⟩ m none) ∧
    (now - e.start ≤ reviewWindowMs → reviewRateMax ≤ e.count →
      reviewHandler now nowIso url fetch m ev =
        .response ⟨429, reviewTooManyBody, none⟩ m none) := by
  have hcheck : ∀ w mx, now - e.start ≤ w → mx ≤ e.count →
      isRateLimited w mx m (ipOf ev.xForwardedFor) now = (true, m) := by
    intro w mx hw hc
    simp [isRateLimited, hget, not_lt.mpr hw, hc]
  refine ⟨hcheck, ?_, ?_, ?_⟩
  · intro w mx hw hw2 hc
    rw [hcheck w mx hw hc]
    simp [isRateLimited, hget, not_lt.mpr hw2, hc]
  · intro hw hc
    simp [connectionHandler, horigin, hmethod, hcheck connWindowMs connRateMax hw hc]
  · intro hw hc
    simp [reviewHandler, horigin, hmethod, hcheck reviewWindowMs reviewRateMax hw hc]

/-- Witness for C9: a full connection-handler entry at the exact window
boundary (`now = start + 60000`) still denies without touching the map. -/
theorem rate_limit_deny_atomic_witness :
    connectionHandler 60000 "T" (some "https://hook") .ok
        [("9.9.9.9", ⟨5, 0⟩)] (goodEvent (some (.obj [("embeds", .arr [])]))) =
      .response ⟨429, connTooManyBody, none⟩ [("9.9.9.9", ⟨5, 0⟩)] none :=
  (rate_limit_deny_atomic 60000 60000 "T" (some "https://hook") .ok
      [("9.9.9.9", ⟨5, 0⟩)] (goodEvent (some (.obj [("embeds", .arr [])])))
      ⟨5, 0⟩ (by decide) (by decide) (by decide)).2.2.1 (by decide) (by decide)

/-- C6 (forwarder error mapping): for either handler, once a request has
passed origin, method, rate limiting and payload validation, an absent or
empty configured webhook URL yields 500 "Webhook not configured" with no
outbound call (`forwarded = none`); with a configured URL, a completed
downstream call with a non-ok status yields 502 "Discord webhook failed",
a throwing call yields 502 "Network error", and a successful call yields
200 with body `{"success":true}` and an `Access-Control-Allow-Origin`
header equal to `ALLOWED_ORIGIN`. -/
theorem forwarder_error_mapping :
    (∀ (now : Int) (nowIso : String) (m m1 : RateMap) (ev : Event)
        (payload embedsVal : JsVal) (sp : ConnPayload),
      ev.origin.getD "" = ALLOWED_ORIGIN →
      ev.httpMethod = "POST" →
      isRateLimited connWindowMs connRateMax m (ipOf ev.xForwardedFor) now
        = (false, m1) →
      ev.body = some payload →
      getProp payload "embeds" = .ok embedsVal →
      jsTruthy embedsVal = true →
      jsIsArray embedsVal = true →
      connectionSanitize nowIso embedsVal = .ok sp →
      (∀ url fetch, url.getD "" = "" →
        connectionHandler now nowIso url fetch m ev =
          .response ⟨500, "Webhook not configured", none⟩ m1 none) ∧
      (∀ url, url.getD "" ≠ "" →
        connectionHandler now nowIso url .notOk m ev =
          .response ⟨502, "Discord webhook failed", none⟩ m1 (some sp) ∧
        connectionHandler now nowIso url .throws m ev =
          .response ⟨502, "Network error", none⟩ m1 (some sp) ∧
        connectionHandler now nowIso url .ok m ev =
          .response ⟨200, successBody, some ALLOWED_ORIGIN⟩ m1 (some sp))) ∧
    (∀ (now : Int) (nowIso : String) (m m1 : RateMap) (ev : Event)
        (payload : JsVal) (n : Int),
      ev.origin.getD "" = ALLOWED_ORIGIN →
      ev.httpMethod = "POST" →
      isRateLimited reviewWindowMs reviewRateMax m (ipOf ev.xForwardedFor) now
        = (false, m1) →
      ev.body = some payload →
      isNullish payload = false →
      jsTruthy (getPropOpt payload "username") = true →
      jsTruthy (getPropOpt payload "userId") = true →
      jsTruthy (getPropOpt payload "rating") = true →
      jsTruthy (getPropOpt payload "comment") = true →
      parseIntJs (getPropOpt payload "rating") = some n →
      1 ≤ n → n ≤ 5 →
      5 ≤ jsLen (jsTrim (jsSlice (jsToString (getPropOpt payload "comment")) 500)) →
      matchesUserIdPattern (jsToString (getPropOpt payload "userId")) = true →
      (∀ url fetch, url.getD "" = "" →
        reviewHandler now nowIso url fetch m ev =
          .response ⟨500, "Webhook not configured", none⟩ m1 none) ∧
      (∀ url, url.getD "" ≠ "" →
        reviewHandler now nowIso url .notOk m ev =
          .response ⟨502, "Discord webhook failed", none⟩ m1
            (some (reviewBuildPayload nowIso (getPropOpt payload "username")
              (getPropOpt payload "userId") (getPropOpt payload "avatarUrl") n
              (jsSlice (jsToString (getPropOpt payload "comment")) 500))) ∧
        reviewHandler now nowIso url .throws m ev =
          .response ⟨502, "Network error", none⟩ m1
            (some (reviewBuildPayload nowIso (getPropOpt payload "username")
              (getPropOpt payload "userId") (getPropOpt payload "avatarUrl") n
              (jsSlice (jsToString (getPropOpt payload "comment")) 500))) ∧
        reviewHandler now nowIso url .ok m ev =
          .response ⟨200, successBody, some ALLOWED_ORIGIN⟩ m1
            (some (reviewBuildPayload nowIso (getPropOpt payload "username")
              (getPropOpt payload "userId") (getPropOpt payload "avatarUrl") n
              (jsSlice (jsToString (getPropOpt payload "comment")) 500))))) := by
  constructor
  · intro now nowIso m m1 ev payload embedsVal sp
      horigin hmethod hrl hbody hget htruthy harr hsan
    constructor
    · intro url fetch hurl
      simp [connectionHandler, horigin, hmethod, hrl, hbody, hget,
        htruthy, harr, hsan, hurl]
    · intro url hurl
      refine ⟨?_, ?_, ?_⟩ <;>
        simp [connectionHandler, horigin, hmethod, hrl, hbody, hget,
          htruthy, harr, hsan, hurl]
  · intro now nowIso m m1 ev payload n
      horigin hmethod hrl hbody hnn ht1 ht2 ht3 ht4 hparse hn1 hn5 hcomment huid
    have hrange : ¬ (n < 1 ∨ 5 < n) := by omega
    have hclen : ¬ (jsLen (jsTrim (jsSlice (jsToString (getPropOpt payload "comment")) 500)) < 5) := by
      omega
    constructor
    · intro url fetch hurl
      simp [reviewHandler, horigin, hmethod, hrl, hbody, hnn, ht1, ht2, ht3, ht4,
        hparse, hrange, hclen, huid, hurl]
    · intro url hurl
      refine ⟨?_, ?_, ?_⟩ <;>
        simp [reviewHandler, horigin, hmethod, hrl, hbody, hnn, ht1, ht2, ht3, ht4,
          hparse, hrange, hclen, huid, hurl]

/-- Witness for C6: a concrete valid connection request gets 500 when the
URL is unset, and a concrete valid review request gets 200 with the CORS
header when the downstream call succeeds. -/
theorem forwarder_error_mapping_witness :
    connectionHandler 0 "T" none .ok []
        (goodEvent (some (.obj [("embeds", .arr [])]))) =
      .response ⟨500, "Webhook not configured", none⟩ [("9.9.9.9", ⟨1, 0⟩)] none ∧
    reviewHandler 0 "T" (some "https://hook") .ok []
        (goodEvent (some (reviewBodyWith (.num 3)))) =
      .response ⟨200, successBody, some ALLOWED_ORIGIN⟩ [("9.9.9.9", ⟨1, 0⟩)]
        (some (reviewBuildPayload "T" (.str "Alice") (.str "123456789012345")
          (.str "https://cdn.example/a.png") 3 "Great service!")) := by
  constructor
  · exact (forwarder_error_mapping.1 0 "T" [] [("9.9.9.9", ⟨1, 0⟩)]
      (goodEvent (some (.obj [("embeds", .arr [])]))) (.obj [("embeds", .arr [])])
      (.arr []) ⟨[]⟩ rfl rfl (by decide) rfl rfl rfl rfl rfl).1 none .ok rfl
  · exact ((forwarder_error_mapping.2 0 "T" [] [("9.9.9.9", ⟨1, 0⟩)]
      (goodEvent (some (reviewBodyWith (.num 3)))) (reviewBodyWith (.num 3)) 3
      rfl rfl (by decide) rfl rfl rfl rfl rfl rfl rfl (by decide) (by decide)
      (by decide) rfl).2 (some "https://hook") (by decide)).2.2

theorem runRequests_in_window (w : Int) (mx : Nat) (ip : String) (t1 : Int)
    (ts : List Int) : ∀ (m : RateMap) (c : Nat),
    0 ≤ w → rlGet m ip = some ⟨c, t1⟩ →
    (∀ t ∈ ts, t1 ≤ t ∧ t ≤ t1 + w) →
    (runRequests w mx ip m ts).1 =
      (List.range ts.length).map (fun i => decide (mx ≤ c + i)) := by
  induction ts with
  | nil => intro m c _ _ _; simp [runRequests]
  | cons t ts ih =>
    intro m c hw hget hin
    have ht : t1 ≤ t ∧ t ≤ t1 + w := hin t (List.mem_cons_self t ts)
    have hnot : ¬ (t - t1 > w) := by omega
    have hin' : ∀ u ∈ ts, t1 ≤ u ∧ u ≤ t1 + w :=
      fun u hu => hin u (List.mem_cons_of_mem _ hu)
    by_cases hc : mx ≤ c
    · have hstep : isRateLimited w mx m ip t = (true, m) := by
        simp [isRateLimited, hget, hnot, hc]
      have hrest := ih m c hw hget hin'
      simp only [runRequests, hstep, hrest, List.length_cons,
        List.range_succ_eq_map, List.map_cons, List.map_map, List.cons.injEq]
      refine ⟨by simpa using hc, ?_⟩
      apply List.map_congr_left
      intro i _
      exact decide_eq_decide.mpr (by omega)
    · have hstep : isRateLimited w mx m ip t = (false, rlSet m ip ⟨c + 1, t1⟩) := by
        simp [isRateLimited, hget, hnot, hc]
      have hget' : rlGet (rlSet m ip ⟨c + 1, t1⟩) ip = some ⟨c + 1, t1⟩ :=
        rlGet_rlSet_self m ip ⟨c + 1, t1⟩
      have hrest := ih (rlSet m ip ⟨c + 1, t1⟩) (c + 1) hw hget' hin'
      simp only [runRequests, hstep, hrest, List.length_cons,
        List.range_succ_eq_map, List.map_cons, List.map_map, List.cons.injEq]
      refine ⟨by simpa using hc, ?_⟩
      apply List.map_congr_left
      intro i _
      exact decide_eq_decide.mpr (by omega)

/-- C1 (rate limiter admission contract): the two handlers use
window/limit pairs 60000 ms/5 and 300000 ms/2 respectively; one admission
check admits exactly when the IP's entry is absent, expired (strictly more
than the window has elapsed since its start, in which case the entry is
reset to count 1 starting now), or holds a count strictly below the
maximum (in which case the count is incremented in place); an entry seen
exactly at `start + window` is still in the old window; and starting from
no entry, a sequence of requests all within one window is admitted
exactly on its first `maxCount` requests (the request at position `i`,
counting from 0, is denied iff `mx ≤ i`, i.e. the `N`-th request admits
iff `N ≤ maxCount`). -/
theorem rate_limiter_contract :
    (connWindowMs = 60000 ∧ connRateMax = 5 ∧
      reviewWindowMs = 300000 ∧ reviewRateMax = 2) ∧
    (∀ (w : Int) (mx : Nat) (m : RateMap) (ip : String) (now : Int),
      (rlGet m ip = none → 0 < mx →
        isRateLimited w mx m ip now = (false, rlSet m ip ⟨1, now⟩)) ∧
      (∀ e, rlGet m ip = some e → now - e.start > w →
        isRateLimited w mx m ip now = (false, rlSet m ip ⟨1, now⟩)) ∧
      (∀ e, rlGet m ip = some e → now - e.start ≤ w → e.count < mx →
        isRateLimited w mx m ip now = (false, rlSet m ip ⟨e.count + 1, e.start⟩)) ∧
      (∀ e, rlGet m ip = some e → now = e.start + w → mx ≤ e.count →
        isRateLimited w mx m ip now = (true, m)) ∧
      (0 < mx →
        ((isRateLimited w mx m ip now).1 = false ↔
          rlGet m ip = none ∨
            ∃ e, rlGet m ip = some e ∧ (now - e.start > w ∨ e.count < mx)))) ∧
    (∀ (w : Int) (mx : Nat) (ip : String) (m : RateMap) (t1 : Int) (ts : List Int),
      0 ≤ w → 0 < mx → rlGet m ip = none →
      (∀ t ∈ ts, t1 ≤ t ∧ t ≤ t1 + w) →
      (runRequests w mx ip m (t1 :: ts)).1 =
        (List.range (ts.length + 1)).map (fun i => decide (mx ≤ i))) := by
  refine ⟨⟨rfl, rfl, rfl, rfl⟩, ?_, ?_⟩
  · intro w mx m ip now
    refine ⟨?_, ?_, ?_, ?_, ?_⟩
    · intro hre hmx
      by_cases h0 : (0 : Int) > w <;>
        simp [isRateLimited, hre, h0, Nat.le_zero, hmx.ne']
    · intro e hre hexp
      simp [isRateLimited, hre, hexp]
    · intro e hre hwin hc
      simp [isRateLimited, hre, not_lt.mpr hwin, Nat.not_le.mpr hc]
    · intro e hre hnow hc
      have hwin : ¬ (now - e.start > w) := by omega
      simp [isRateLimited, hre, hwin, hc]
    · intro hmx
      cases hre : rlGet m ip with
      | none =>
        by_cases h0 : (0 : Int) > w <;>
          simp [isRateLimited, hre, h0, Nat.le_zero, hmx.ne']
      | some e =>
        by_cases hexp : now - e.start > w
        · simp [isRateLimited, hre, hexp]
        · by_cases hc : mx ≤ e.count <;>
            (simp [isRateLimited, hre, hexp, hc, Nat.not_le, Nat.lt_iff_add_one_le]
             try omega)
  · intro w mx ip m t1 ts hw hmx hre hin
    have hnot : ¬ (t1 - t1 > w) := by omega
    have hstep : isRateLimited w mx m ip t1 = (false, rlSet m ip ⟨1, t1⟩) := by
      simp [isRateLimited, hre, hnot, Nat.le_zero, hmx.ne']
    have hrest := runRequests_in_window w mx ip t1 ts (rlSet m ip ⟨1, t1⟩) 1 hw
      (rlGet_rlSet_self m ip ⟨1, t1⟩) hin
    simp only [runRequests, hstep, hrest, List.length_cons,
      List.range_succ_eq_map, List.map_cons, List.map_map, List.cons.injEq]
    refine ⟨by simp [Nat.le_zero, hmx.ne'], ?_⟩
    apply List.map_congr_left
    intro i _
    exact decide_eq_decide.mpr (by omega)

/-- Witness for C1: six connection-handler requests from one IP inside a
single minute admit five times and are denied on the sixth. -/
theorem rate_limiter_contract_witness :
    (runRequests connWindowMs connRateMax "9.9.9.9" []
        (0 :: [10000, 20000, 30000, 40000, 50000])).1 =
      (List.range (5 + 1)).map (fun i => decide (5 ≤ i)) := by
  have h := rate_limiter_contract.2.2 connWindowMs connRateMax "9.9.9.9" [] 0
    [10000, 20000, 30000, 40000, 50000] (by decide) (by decide) rfl (by decide)
  simpa using h

/-- C3 (review rating validation): for an admitted POST whose body parsed
with all four required fields truthy, a rating that does not `parseInt` to
an integer in `[1,5]` is answered 400 "Invalid rating" with nothing
forwarded; when it parses to `n ∈ [1,5]` and the request is forwarded,
the single embed's third field is "Note" with value the star glyph
repeated `n` times.  Concretely, rating `0` is caught by the truthiness
check (400 "Missing fields"), ratings `6` and `"abc"` get 400 "Invalid
rating", and rating `3` forwards exactly three star glyphs. -/
theorem review_rating_validation :
    (∀ (now : Int) (nowIso : String) (url : Option String)
        (fetch : FetchOutcome) (m m1 : RateMap) (ev : Event) (payload : JsVal),
      ev.origin.getD "" = ALLOWED_ORIGIN →
      ev.httpMethod = "POST" →
      isRateLimited reviewWindowMs reviewRateMax m (ipOf ev.xForwardedFor) now
        = (false, m1) →
      ev.body = some payload →
      isNullish payload = false →
      jsTruthy (getPropOpt payload "username") = true →
      jsTruthy (getPropOpt payload "userId") = true →
      jsTruthy (getPropOpt payload "rating") = true →
      jsTruthy (getPropOpt payload "comment") = true →
      ((parseIntJs (getPropOpt payload "rating") = none →
        reviewHandler now nowIso url fetch m ev =
          .response ⟨400, "Invalid rating", none⟩ m1 none) ∧
       (∀ n, parseIntJs (getPropOpt payload "rating") = some n →
        n < 1 ∨ 5 < n →
        reviewHandler now nowIso url fetch m ev =
          .response ⟨400, "Invalid rating", none⟩ m1 none) ∧
       (∀ n, parseIntJs (getPropOpt payload "rating") = some n →
        1 ≤ n → n ≤ 5 →
        ∀ r m2 p, reviewHandler now nowIso url fetch m ev =
            .response r m2 (some p) →
          ∃ emb, p.embeds = [emb] ∧
            (emb.fields.get? 2).map SafeField.value =
              some (starRepeat n.toNat)))) ∧
    reviewHandler 0 "T" (some "https://hook") .ok []
        (goodEvent (some (reviewBodyWith (.num 0)))) =
      .response ⟨400, "Missing fields", none⟩ [("9.9.9.9", ⟨1, 0⟩)] none ∧
    reviewHandler 0 "T" (some "https://hook") .ok []
        (goodEvent (some (reviewBodyWith (.num 6)))) =
      .response ⟨400, "Invalid rating", none⟩ [("9.9.9.9", ⟨1, 0⟩)] none ∧
    reviewHandler 0 "T" (some "https://hook") .ok []
        (goodEvent (some (reviewBodyWith (.str "abc")))) =
      .response ⟨400, "Invalid rating", none⟩ [("9.9.9.9", ⟨1, 0⟩)] none ∧
    reviewHandler 0 "T" (some "https://hook") .ok []
        (goodEvent (some (reviewBodyWith (.num 3)))) =
      .response ⟨200, successBody, some ALLOWED_ORIGIN⟩ [("9.9.9.9", ⟨1, 0⟩)]
        (some ⟨"⭐ **Nouvel avis reçu !**",
          [⟨"💬 Avis Client", 16777215, some "https://cdn.example/a.png",
            [⟨"Utilisateur", "Alice", true⟩,
             ⟨"ID", "123456789012345", true⟩,
             ⟨"Note", "⭐⭐⭐", false⟩,
             ⟨"Commentaire", "Great service!", false⟩],
            "T"⟩]⟩) := by
  refine ⟨?_, by decide, by decide, by decide, by decide⟩
  intro now nowIso url fetch m m1 ev payload
    horigin hmethod hrl hbody hnn ht1 ht2 ht3 ht4
  refine ⟨?_, ?_, ?_⟩
  · intro hp
    simp [reviewHandler, horigin, hmethod, hrl, hbody, hnn, ht1, ht2, ht3, ht4, hp]
  · intro n hp hbad
    simp [reviewHandler, horigin, hmethod, hrl, hbody, hnn, ht1, ht2, ht3, ht4,
      hp, hbad]
  · intro n hp hn1 hn5 r m2 p h
    have hrange : ¬ (n < 1 ∨ 5 < n) := by omega
    by_cases hclen :
        jsLen (jsTrim (jsSlice (jsToString (getPropOpt payload "comment")) 500)) < 5
    · simp [reviewHandler, horigin, hmethod, hrl, hbody, hnn, ht1, ht2, ht3,
        ht4, hp, hrange, hclen] at h
    · by_cases huid : matchesUserIdPattern (jsToString (getPropOpt payload "userId")) = true
      · by_cases hurl : url.getD "" = ""
        · simp [reviewHandler, horigin, hmethod, hrl, hbody, hnn, ht1, ht2, ht3,
            ht4, hp, hrange, hclen, huid, hurl] at h
        · cases fetch <;>
            (simp [reviewHandler, horigin, hmethod, hrl, hbody, hnn, ht1,
               ht2, ht3, ht4, hp, hrange, hclen, huid, hurl] at h
             obtain ⟨-, -, hpay⟩ := h
             exact hpay ▸ ⟨_, rfl, rfl⟩)
      · simp [reviewHandler, horigin, hmethod, hrl, hbody, hnn, ht1, ht2, ht3,
          ht4, hp, hrange, hclen, huid] at h

/-- Witness for C3: a truthy non-numeric rating is answered 400 "Invalid
rating" and nothing is forwarded. -/
theorem review_rating_validation_witness :
    reviewHandler 5 "T" none .throws []
        (goodEvent (some (reviewBodyWith (.str "x")))) =
      .response ⟨400, "Invalid rating", none⟩ [("9.9.9.9", ⟨1, 5⟩)] none :=
  (review_rating_validation.1 5 "T" none .throws [] [("9.9.9.9", ⟨1, 5⟩)]
    (goodEvent (some (reviewBodyWith (.str "x")))) (reviewBodyWith (.str "x"))
    rfl rfl (by decide) rfl rfl rfl rfl rfl rfl).1 rfl

/-- A concrete review body with a 600-character comment, a 15-digit
userId, rating 5 and no avatar. -/
def reviewBodyLongComment : JsVal :=
  .obj [("username", .str "Alice"), ("userId", .str "123456789012345"),
        ("rating", .num 5), ("comment", .str ⟨List.replicate 600 'a'⟩),
        ("avatarUrl", .null)]

/-- A concrete review body whose comment trims to fewer than 5
characters. -/
def reviewBodyShortComment : JsVal :=
  .obj [("username", .str "Alice"), ("userId", .str "123456789012345"),
        ("rating", .num 5), ("comment", .str "hi"),
        ("avatarUrl", .null)]

/-- A concrete review body with a 3-digit userId. -/
def reviewBodyBadUserId : JsVal :=
  .obj [("username", .str "Alice"), ("userId", .str "123"),
        ("rating", .num 5), ("comment", .str "Great service!"),
        ("avatarUrl", .null)]

/-- C4 (review comment and userId validation): the comment is stringified
and truncated to 500 characters first; if the truncation trims to fewer
than 5 characters the handler answers 400 "Comment too short", otherwise
a userId whose string form does not match `^\d{15,20}$` gets 400
"Invalid user ID", and on success the truncated comment is exactly the
value of the forwarded "Commentaire" field.  Concretely, a 600-character
comment is truncated to 500 characters and forwarded, a comment trimming
to 2 characters gets 400 "Comment too short", and userId "123" gets 400
"Invalid user ID". -/
theorem review_comment_userid_validation :
    (∀ (now : Int) (nowIso : String) (url : Option String)
        (fetch : FetchOutcome) (m m1 : RateMap) (ev : Event) (payload : JsVal)
        (n : Int),
      ev.origin.getD "" = ALLOWED_ORIGIN →
      ev.httpMethod = "POST" →
      isRateLimited reviewWindowMs reviewRateMax m (ipOf ev.xForwardedFor) now
        = (false, m1) →
      ev.body = some payload →
      isNullish payload = false →
      jsTruthy (getPropOpt payload "username") = true →
      jsTruthy (getPropOpt payload "userId") = true →
      jsTruthy (getPropOpt payload "rating") = true →
      jsTruthy (getPropOpt payload "comment") = true →
      parseIntJs (getPropOpt payload "rating") = some n →
      1 ≤ n → n ≤ 5 →
      ((jsLen (jsTrim (jsSlice (jsToString (getPropOpt payload "comment")) 500)) < 5 →
        reviewHandler now nowIso url fetch m ev =
          .response ⟨400, "Comment too short", none⟩ m1 none) ∧
       (5 ≤ jsLen (jsTrim (jsSlice (jsToString (getPropOpt payload "comment")) 500)) →
        matchesUserIdPattern (jsToString (getPropOpt payload "userId")) = false →
        reviewHandler now nowIso url fetch m ev =
          .response ⟨400, "Invalid user ID", none⟩ m1 none) ∧
       (∀ r m2 p, reviewHandler now nowIso url fetch m ev =
          .response r m2 (some p) →
        ∃ emb, p.embeds = [emb] ∧
          emb.fields.get? 3 = some ⟨"Commentaire",
            jsSlice (jsToString (getPropOpt payload "comment")) 500, false⟩))) ∧
    reviewHandler 0 "T" (some "https://hook") .ok []
        (goodEvent (some reviewBodyLongComment)) =
      .response ⟨200, successBody, some ALLOWED_ORIGIN⟩ [("9.9.9.9", ⟨1, 0⟩)]
        (some ⟨"⭐ **Nouvel avis reçu !**",
          [⟨"💬 Avis Client", 16777215, none,
            [⟨"Utilisateur", "Alice", true⟩,
             ⟨"ID", "123456789012345", true⟩,
             ⟨"Note", "⭐⭐⭐⭐⭐", false⟩,
             ⟨"Commentaire", ⟨List.replicate 500 'a'⟩, false⟩],
            "T"⟩]⟩) ∧
    reviewHandler 0 "T" (some "https://hook") .ok []
        (goodEvent (some reviewBodyShortComment)) =
      .response ⟨400, "Comment too short", none⟩ [("9.9.9.9", ⟨1, 0⟩)] none ∧
    reviewHandler 0 "T" (some "https://hook") .ok []
        (goodEvent (some reviewBodyBadUserId)) =
      .response ⟨400, "Invalid user ID", none⟩ [("9.9.9.9", ⟨1, 0⟩)] none := by
  refine ⟨?_, by decide, by decide, by decide⟩
  intro now nowIso url fetch m m1 ev payload n
    horigin hmethod hrl hbody hnn ht1 ht2 ht3 ht4 hp hn1 hn5
  have hrange : ¬ (n < 1 ∨ 5 < n) := by omega
  refine ⟨?_, ?_, ?_⟩
  · intro hclen
    simp [reviewHandler, horigin, hmethod, hrl, hbody, hnn, ht1, ht2, ht3, ht4,
      hp, hrange, hclen]
  · intro hclen huid
    have hclen' : ¬ (jsLen (jsTrim (jsSlice (jsToString (getPropOpt payload "comment")) 500)) < 5) := by
      omega
    simp [reviewHandler, horigin, hmethod, hrl, hbody, hnn, ht1, ht2, ht3, ht4,
      hp, hrange, hclen', huid]
  · intro r m2 p h
    by_cases hclen :
        jsLen (jsTrim (jsSlice (jsToString (getPropOpt payload "comment")) 500)) < 5
    · simp [reviewHandler, horigin, hmethod, hrl, hbody, hnn, ht1, ht2, ht3,
        ht4, hp, hrange, hclen] at h
    · by_cases huid : matchesUserIdPattern (jsToString (getPropOpt payload "userId")) = true
      · by_cases hurl : url.getD "" = ""
        · simp [reviewHandler, horigin, hmethod, hrl, hbody, hnn, ht1, ht2, ht3,
            ht4, hp, hrange, hclen, huid, hurl] at h
        · cases fetch <;>
            (simp [reviewHandler, horigin, hmethod, hrl, hbody, hnn, ht1,
               ht2, ht3, ht4, hp, hrange, hclen, huid, hurl] at h
             obtain ⟨-, -, hpay⟩ := h
             exact hpay ▸ ⟨_, rfl, rfl⟩)
      · simp [reviewHandler, horigin, hmethod, hrl, hbody, hnn, ht1, ht2, ht3,
          ht4, hp, hrange, hclen, huid] at h

/-- Witness for C4: a comment that trims to 2 characters is answered 400
"Comment too short". -/
theorem review_comment_userid_validation_witness :
    reviewHandler 7 "T" none .throws []
        (goodEvent (some (.obj [("username", .str "Bob"),
          ("userId", .str "123456789012345678"), ("rating", .num 2),
          ("comment", .str "  ab  ")]))) =
      .response ⟨400, "Comment too short", none⟩ [("9.9.9.9", ⟨1, 7⟩)] none :=
  ((review_comment_userid_validation.1 7 "T" none .throws []
    [("9.9.9.9", ⟨1, 7⟩)]
    (goodEvent (some (.obj [("username", .str "Bob"),
      ("userId", .str "123456789012345678"), ("rating", .num 2),
      ("comment", .str "  ab  ")])))
    (.obj [("username", .str "Bob"),
      ("userId", .str "123456789012345678"), ("rating", .num 2),
      ("comment", .str "  ab  ")]) 2
    rfl rfl (by decide) rfl rfl rfl rfl rfl rfl rfl (by decide) (by decide)).1
    (by decide))

theorem getProp_eq_ok (v : JsVal) (k : String) (h : isNullish v = false) :
    getProp v k = .ok (getPropOpt v k) := by
  cases v <;> simp_all [isNullish, getProp, getPropOpt]

theorem mapExcept_length {A B : Type} (f : A -> Except Unit B) :
    forall (l : List A) (out : List B), mapExcept f l = .ok out -> out.length = l.length := by
  intro l
  induction l with
  | nil =>
    intro out h
    simp only [mapExcept, Except.ok.injEq] at h
    simp [<- h]
  | cons a l ih =>
    intro out h
    simp only [mapExcept, bind, Except.bind] at h
    cases hfa : f a with
    | error e => rw [hfa] at h; simp at h
    | ok b =>
      rw [hfa] at h
      cases hml : mapExcept f l with
      | error e => rw [hml] at h; simp at h
      | ok bs =>
        rw [hml] at h
        simp only [Except.ok.injEq] at h
        simp [<- h, ih bs hml]

theorem mapExcept_mem {A B : Type} (f : A -> Except Unit B) :
    forall (l : List A) (out : List B), mapExcept f l = .ok out ->
      forall b, b ∈ out -> exists a, a ∈ l ∧ f a = .ok b := by
  intro l
  induction l with
  | nil =>
    intro out h
    simp only [mapExcept, Except.ok.injEq] at h
    simp [<- h]
  | cons a l ih =>
    intro out h
    simp only [mapExcept, bind, Except.bind] at h
    cases hfa : f a with
    | error e => rw [hfa] at h; simp at h
    | ok b =>
      rw [hfa] at h
      cases hml : mapExcept f l with
      | error e => rw [hml] at h; simp at h
      | ok bs =>
        rw [hml] at h
        simp only [Except.ok.injEq] at h
        intro y hy
        rw [<- h] at hy
        rcases List.mem_cons.mp hy with hEq | hmem
        · exact ⟨a, List.mem_cons_self a l, hEq ▸ hfa⟩
        · obtain ⟨x, hx, hfx⟩ := ih bs hml y hmem
          exact ⟨x, List.mem_cons_of_mem a hx, hfx⟩

/-- Characterization of a successful `sanitizeField`: both strings come
from stringify-with-default-then-slice and obey their bounds. -/
theorem sanitizeField_spec (f : JsVal) (sf : SafeField)
    (h : sanitizeField f = .ok sf) :
    sf.name = jsSlice (jsToString (jsOr (getPropOpt f "name") (.str ""))) 256 ∧
    sf.value = jsSlice (jsToString (jsOr (getPropOpt f "value") (.str ""))) 1024 ∧
    sf.inline = jsTruthy (getPropOpt f "inline") ∧
    jsLen sf.name ≤ 256 ∧ jsLen sf.value ≤ 1024 := by
  have hnn : isNullish f = false := by
    cases f <;> first
      | rfl
      | simp [sanitizeField, getProp, bind, Except.bind] at h
  simp only [sanitizeField, getProp_eq_ok f _ hnn, bind, Except.bind,
    pure, Except.pure, Except.ok.injEq] at h
  subst h
  exact ⟨rfl, rfl, rfl, jsLen_jsSlice_le _ _, jsLen_jsSlice_le _ _⟩

theorem sanitizeFields_arr (xs : List JsVal) :
    sanitizeFields (.arr xs) = mapExcept sanitizeField (xs.take 25) := rfl

theorem sanitizeFields_not_arr (f : JsVal) (h : jsIsArray f = false) :
    sanitizeFields f = .ok [] := by
  cases f <;> simp_all [jsIsArray, sanitizeFields]

theorem sanitizeFields_length (f : JsVal) (fs : List SafeField)
    (h : sanitizeFields f = .ok fs) : fs.length ≤ 25 := by
  cases f with
  | arr xs =>
    rw [sanitizeFields_arr] at h
    have := mapExcept_length sanitizeField (xs.take 25) fs h
    calc fs.length = (xs.take 25).length := this
      _ ≤ 25 := by simp [List.length_take]
  | _ =>
    rw [sanitizeFields_not_arr _ (by rfl)] at h
    simp only [Except.ok.injEq] at h
    simp [← h]

theorem sanitizeFields_bounds (f : JsVal) (fs : List SafeField)
    (h : sanitizeFields f = .ok fs) :
    ∀ sf ∈ fs, jsLen sf.name ≤ 256 ∧ jsLen sf.value ≤ 1024 := by
  cases f with
  | arr xs =>
    rw [sanitizeFields_arr] at h
    intro sf hsf
    obtain ⟨x, hx0, hx⟩ := mapExcept_mem sanitizeField (xs.take 25) fs h sf hsf
    have hspec := sanitizeField_spec x sf hx
    exact ⟨hspec.2.2.2.1, hspec.2.2.2.2⟩
  | _ =>
    rw [sanitizeFields_not_arr _ (by rfl)] at h
    simp only [Except.ok.injEq] at h
    simp [← h]

/-- Characterization of a successful `sanitizeEmbed`: every string field
is stringified and sliced to its bound, the color is forwarded unchanged
when the client sent a number and defaulted to 0 otherwise, a falsy
`thumbnail?.url` is omitted (`none`), the fields array is the
sanitization of the first 25 client entries ([] when absent or not an
array), and the timestamp is the server-supplied value. -/
theorem sanitizeEmbed_spec (nowIso : String) (e : JsVal) (se : SafeEmbed)
    (h : sanitizeEmbed nowIso e = .ok se) :
    se.title = jsSlice (jsToString (jsOr (getPropOpt e "title") (.str ""))) 256 ∧
    se.description =
      jsSlice (jsToString (jsOr (getPropOpt e "description") (.str ""))) 4096 ∧
    (∀ s, getPropOpt e "description" = .str s → se.description = jsSlice s 4096) ∧
    jsLen se.title ≤ 256 ∧ jsLen se.description ≤ 4096 ∧
    (∀ n, getPropOpt e "color" = .num n → se.color = n) ∧
    ((∀ n, getPropOpt e "color" ≠ .num n) → se.color = 0) ∧
    (jsTruthy (getPropOpt (getPropOpt e "thumbnail") "url") = false →
      se.thumbnail = none) ∧
    (∀ u, se.thumbnail = some u → jsLen u ≤ 512) ∧
    sanitizeFields (getPropOpt e "fields") = .ok se.fields ∧
    (jsIsArray (getPropOpt e "fields") = false → se.fields = []) ∧
    se.fields.length ≤ 25 ∧
    (∀ sf ∈ se.fields, jsLen sf.name ≤ 256 ∧ jsLen sf.value ≤ 1024) ∧
    se.timestamp = nowIso := by
  have hnn : isNullish e = false := by
    cases e <;> first
      | rfl
      | simp [sanitizeEmbed, getProp, bind, Except.bind] at h
  simp only [sanitizeEmbed, getProp_eq_ok e _ hnn, bind, Except.bind] at h
  cases hm : sanitizeFields (getPropOpt e "fields") with
  | error err => rw [hm] at h; simp at h
  | ok fs =>
    rw [hm] at h
    simp only [pure, Except.pure, Except.ok.injEq] at h
    subst h
    refine ⟨rfl, rfl, ?_, jsLen_jsSlice_le _ _, jsLen_jsSlice_le _ _,
      ?_, ?_, ?_, ?_, rfl, ?_, sanitizeFields_length _ _ hm,
      sanitizeFields_bounds _ _ hm, rfl⟩
    · intro s hs
      rw [hs]
      by_cases hse : s = "" <;> simp [jsOr, jsTruthy, jsToString, hse]
    · intro n hn; simp [hn]
    · intro hnotnum
      cases hc : getPropOpt e "color" <;>
        first
          | exact absurd hc (hnotnum _)
          | simp [hc]
    · intro hfalse; simp [hfalse]
    · intro u hu
      cases hb : jsTruthy (getPropOpt (getPropOpt e "thumbnail") "url") with
      | false => rw [hb] at hu; simp at hu
      | true =>
        rw [hb] at hu
        simp only [if_true, Option.some.injEq] at hu
        exact hu ▸ jsLen_jsSlice_le _ _
    · intro hna
      rw [sanitizeFields_not_arr _ hna] at hm
      simp only [Except.ok.injEq] at hm
      simp [← hm]

/-- C5 (connection sanitization): whenever the connection handler
forwards, the forwarded embeds are exactly the client `embeds` entries
passed through `sanitizeEmbed`; a successfully sanitized embed carries
the client description truncated to at most 4096 characters (and
string-valued client descriptions are truncated verbatim), at most the
first 25 field entries ([] when `fields` is absent or not an array), and
the server-generated timestamp in place of whatever the client sent.
Concretely, a 10000-character description is truncated to exactly 4096
characters, and 30 field entries are truncated to 25. -/
theorem connection_sanitization :
    (∀ (now : Int) (nowIso : String) (url : Option String)
        (fetch : FetchOutcome) (m m1 : RateMap) (ev : Event)
        (payload : JsVal) (xs : List JsVal),
      ev.origin.getD "" = ALLOWED_ORIGIN →
      ev.httpMethod = "POST" →
      isRateLimited connWindowMs connRateMax m (ipOf ev.xForwardedFor) now
        = (false, m1) →
      ev.body = some payload →
      getProp payload "embeds" = .ok (.arr xs) →
      ∀ r m2 sp, connectionHandler now nowIso url fetch m ev =
          .response r m2 (some sp) →
        mapExcept (sanitizeEmbed nowIso) xs = .ok sp.embeds) ∧
    (∀ (nowIso : String) (e : JsVal) (se : SafeEmbed),
      sanitizeEmbed nowIso e = .ok se →
      (∀ s, getPropOpt e "description" = .str s →
        se.description = jsSlice s 4096) ∧
      jsLen se.description ≤ 4096 ∧
      (∀ xs, getPropOpt e "fields" = .arr xs →
        mapExcept sanitizeField (xs.take 25) = .ok se.fields) ∧
      (jsIsArray (getPropOpt e "fields") = false → se.fields = []) ∧
      se.fields.length ≤ 25 ∧
      se.timestamp = nowIso) ∧
    ((sanitizeEmbed "T"
        (.obj [("description", .str ⟨List.replicate 10000 'a'⟩)])).map
      (fun se => jsLen se.description) = .ok 4096) ∧
    ((sanitizeEmbed "T"
        (.obj [("fields", .arr (List.replicate 30 (.obj [])))])).map
      (fun se => se.fields.length) = .ok 25) := by
  refine ⟨?_, ?_, ?_, rfl⟩
  · intro now nowIso url fetch m m1 ev payload xs
      horigin hmethod hrl hbody hget r m2 sp h
    cases hs : mapExcept (sanitizeEmbed nowIso) xs with
    | error err =>
      simp [connectionHandler, horigin, hmethod, hrl, hbody, hget,
        connectionSanitize, Except.map, jsTruthy, jsIsArray, hs] at h
    | ok l =>
      by_cases hurl : url.getD "" = ""
      · simp [connectionHandler, horigin, hmethod, hrl, hbody, hget,
          connectionSanitize, Except.map, jsTruthy, jsIsArray, hs, hurl] at h
      · cases fetch <;>
          (simp [connectionHandler, horigin, hmethod, hrl, hbody, hget,
             connectionSanitize, Except.map, jsTruthy, jsIsArray, hs, hurl] at h
           obtain ⟨-, -, hpay⟩ := h
           subst hpay
           rfl)
  · intro nowIso e se hsan
    have hspec := sanitizeEmbed_spec nowIso e se hsan
    refine ⟨hspec.2.2.1, hspec.2.2.2.2.1, ?_, hspec.2.2.2.2.2.2.2.2.2.2.1,
      hspec.2.2.2.2.2.2.2.2.2.2.2.1, hspec.2.2.2.2.2.2.2.2.2.2.2.2.2⟩
    intro xs hxs
    have := hspec.2.2.2.2.2.2.2.2.2.1
    rw [hxs] at this
    exact this
  · have key : ∀ s : String, s ≠ "" → sanitizeEmbed "T"
        (.obj [("description", .str s)]) =
        .ok { title := "", description := jsSlice s 4096,
              color := 0, thumbnail := none, fields := [], timestamp := "T" } := by
      intro s hs
      simp [sanitizeEmbed, getProp, getPropOpt, lookupProp, sanitizeFields,
        jsOr, jsTruthy, jsIsArray, jsToString, bind, Except.bind,
        pure, Except.pure, hs, jsSlice_empty]
    have hne : (⟨List.replicate 10000 'a'⟩ : String) ≠ "" := by
      intro hcon
      have hdata : List.replicate 10000 'a' = ([] : List Char) :=
        congrArg String.data hcon
      have h2 : (List.replicate 10000 'a').length = ([] : List Char).length :=
        congrArg List.length hdata
      rw [List.length_replicate, List.length_nil] at h2
      exact absurd h2 (by decide)
    rw [key _ hne]
    simp only [Except.map, jsLen, jsSlice, List.take_replicate,
      List.length_replicate, Except.ok.injEq]
    simp

/-- Witness for C5: a one-embed payload with description "hello" is
forwarded with that description, empty fields and the server
timestamp. -/
theorem connection_sanitization_witness :
    mapExcept (sanitizeEmbed "T") [.obj [("description", .str "hello")]] =
      .ok [⟨"", "hello", 0, none, [], "T"⟩] :=
  connection_sanitization.1 0 "T" (some "https://hook") .ok []
    [("9.9.9.9", ⟨1, 0⟩)]
    (goodEvent (some (.obj [("embeds",
      .arr [.obj [("description", .str "hello")]])])))
    (.obj [("embeds", .arr [.obj [("description", .str "hello")]])])
    [.obj [("description", .str "hello")]]
    rfl rfl (by decide) rfl rfl
    ⟨200, successBody, some ALLOWED_ORIGIN⟩ [("9.9.9.9", ⟨1, 0⟩)]
    ⟨[⟨"", "hello", 0, none, [], "T"⟩]⟩ (by decide)

/-! ### Branch lemmas shared between the body-validation and
error-precedence developments.  Each one fixes the conditions reaching a
particular terminal response and evaluates the handler there, for every
webhook URL and downstream outcome. -/

theorem conn_invalid_json (now : Int) (nowIso : String) (url : Option String)
    (fetch : FetchOutcome) (m m1 : RateMap) (ev : Event)
    (hA : ev.origin.getD "" = ALLOWED_ORIGIN) (hB : ev.httpMethod = "POST")
    (hrl : isRateLimited connWindowMs connRateMax m (ipOf ev.xForwardedFor) now
      = (false, m1))
    (hbody : ev.body = none) :
    connectionHandler now nowIso url fetch m ev =
      .response ⟨400, "Invalid JSON", none⟩ m1 none := by
  simp [connectionHandler, hA, hB, hrl, hbody]

theorem review_invalid_json (now : Int) (nowIso : String) (url : Option String)
    (fetch : FetchOutcome) (m m1 : RateMap) (ev : Event)
    (hA : ev.origin.getD "" = ALLOWED_ORIGIN) (hB : ev.httpMethod = "POST")
    (hrl : isRateLimited reviewWindowMs reviewRateMax m (ipOf ev.xForwardedFor) now
      = (false, m1))
    (hbody : ev.body = none) :
    reviewHandler now nowIso url fetch m ev =
      .response ⟨400, "Invalid JSON", none⟩ m1 none := by
  simp [reviewHandler, hA, hB, hrl, hbody]

theorem conn_invalid_structure (now : Int) (nowIso : String)
    (url : Option String) (fetch : FetchOutcome) (m m1 : RateMap) (ev : Event)
    (payload embedsVal : JsVal)
    (hA : ev.origin.getD "" = ALLOWED_ORIGIN) (hB : ev.httpMethod = "POST")
    (hrl : isRateLimited connWindowMs connRateMax m (ipOf ev.xForwardedFor) now
      = (false, m1))
    (hbody : ev.body = some payload)
    (hget : getProp payload "embeds" = .ok embedsVal)
    (hbad : jsTruthy embedsVal = false ∨ jsIsArray embedsVal = false) :
    connectionHandler now nowIso url fetch m ev =
      .response ⟨400, "Invalid payload structure", none⟩ m1 none := by
  rcases hbad with hb | hb <;>
    simp [connectionHandler, hA, hB, hrl, hbody, hget, hb]

theorem conn_crash_null (now : Int) (nowIso : String) (url : Option String)
    (fetch : FetchOutcome) (m m1 : RateMap) (ev : Event)
    (hA : ev.origin.getD "" = ALLOWED_ORIGIN) (hB : ev.httpMethod = "POST")
    (hrl : isRateLimited connWindowMs connRateMax m (ipOf ev.xForwardedFor) now
      = (false, m1))
    (hbody : ev.body = some .null) :
    connectionHandler now nowIso url fetch m ev = .crash m1 := by
  simp [connectionHandler, hA, hB, hrl, hbody, getProp]

theorem review_crash_null (now : Int) (nowIso : String) (url : Option String)
    (fetch : FetchOutcome) (m m1 : RateMap) (ev : Event)
    (hA : ev.origin.getD "" = ALLOWED_ORIGIN) (hB : ev.httpMethod = "POST")
    (hrl : isRateLimited reviewWindowMs reviewRateMax m (ipOf ev.xForwardedFor) now
      = (false, m1))
    (hbody : ev.body = some .null) :
    reviewHandler now nowIso url fetch m ev = .crash m1 := by
  simp [reviewHandler, hA, hB, hrl, hbody, isNullish]

theorem review_missing_fields (now : Int) (nowIso : String)
    (url : Option String) (fetch : FetchOutcome) (m m1 : RateMap) (ev : Event)
    (payload : JsVal)
    (hA : ev.origin.getD "" = ALLOWED_ORIGIN) (hB : ev.httpMethod = "POST")
    (hrl : isRateLimited reviewWindowMs reviewRateMax m (ipOf ev.xForwardedFor) now
      = (false, m1))
    (hbody : ev.body = some payload) (hnn : isNullish payload = false)
    (hbad : jsTruthy (getPropOpt payload "username") = false ∨
      jsTruthy (getPropOpt payload "userId") = false ∨
      jsTruthy (getPropOpt payload "rating") = false ∨
      jsTruthy (getPropOpt payload "comment") = false) :
    reviewHandler now nowIso url fetch m ev =
      .response ⟨400, "Missing fields", none⟩ m1 none := by
  rcases hbad with hb | hb | hb | hb <;>
    simp [reviewHandler, hA, hB, hrl, hbody, hnn, hb]

theorem review_rating_nan (now : Int) (nowIso : String) (url : Option String)
    (fetch : FetchOutcome) (m m1 : RateMap) (ev : Event) (payload : JsVal)
    (hA : ev.origin.getD "" = ALLOWED_ORIGIN) (hB : ev.httpMethod = "POST")
    (hrl : isRateLimited reviewWindowMs reviewRateMax m (ipOf ev.xForwardedFor) now
      = (false, m1))
    (hbody : ev.body = some payload) (hnn : isNullish payload = false)
    (ht1 : jsTruthy (getPropOpt payload "username") = true)
    (ht2 : jsTruthy (getPropOpt payload "userId") = true)
    (ht3 : jsTruthy (getPropOpt payload "rating") = true)
    (ht4 : jsTruthy (getPropOpt payload "comment") = true)
    (hp : parseIntJs (getPropOpt payload "rating") = none) :
    reviewHandler now nowIso url fetch m ev =
      .response ⟨400, "Invalid rating", none⟩ m1 none := by
  simp [reviewHandler, hA, hB, hrl, hbody, hnn, ht1, ht2, ht3, ht4, hp]

theorem review_rating_range (now : Int) (nowIso : String) (url : Option String)
    (fetch : FetchOutcome) (m m1 : RateMap) (ev : Event) (payload : JsVal)
    (n : Int)
    (hA : ev.origin.getD "" = ALLOWED_ORIGIN) (hB : ev.httpMethod = "POST")
    (hrl : isRateLimited reviewWindowMs reviewRateMax m (ipOf ev.xForwardedFor) now
      = (false, m1))
    (hbody : ev.body = some payload) (hnn : isNullish payload = false)
    (ht1 : jsTruthy (getPropOpt payload "username") = true)
    (ht2 : jsTruthy (getPropOpt payload "userId") = true)
    (ht3 : jsTruthy (getPropOpt payload "rating") = true)
    (ht4 : jsTruthy (getPropOpt payload "comment") = true)
    (hp : parseIntJs (getPropOpt payload "rating") = some n)
    (hbad : n < 1 ∨ 5 < n) :
    reviewHandler now nowIso url fetch m ev =
      .response ⟨400, "Invalid rating", none⟩ m1 none := by
  simp [reviewHandler, hA, hB, hrl, hbody, hnn, ht1, ht2, ht3, ht4, hp, hbad]

theorem review_comment_short (now : Int) (nowIso : String) (url : Option String)
    (fetch : FetchOutcome) (m m1 : RateMap) (ev : Event) (payload : JsVal)
    (n : Int)
    (hA : ev.origin.getD "" = ALLOWED_ORIGIN) (hB : ev.httpMethod = "POST")
    (hrl : isRateLimited reviewWindowMs reviewRateMax m (ipOf ev.xForwardedFor) now
      = (false, m1))
    (hbody : ev.body = some payload) (hnn : isNullish payload = false)
    (ht1 : jsTruthy (getPropOpt payload "username") = true)
    (ht2 : jsTruthy (getPropOpt payload "userId") = true)
    (ht3 : jsTruthy (getPropOpt payload "rating") = true)
    (ht4 : jsTruthy (getPropOpt payload "comment") = true)
    (hp : parseIntJs (getPropOpt payload "rating") = some n)
    (hn1 : 1 ≤ n) (hn5 : n ≤ 5)
    (hclen : jsLen (jsTrim (jsSlice (jsToString (getPropOpt payload "comment")) 500)) < 5) :
    reviewHandler now nowIso url fetch m ev =
      .response ⟨400, "Comment too short", none⟩ m1 none := by
  have hrange : ¬ (n < 1 ∨ 5 < n) := by omega
  simp [reviewHandler, hA, hB, hrl, hbody, hnn, ht1, ht2, ht3, ht4, hp,
    hrange, hclen]

theorem review_bad_userid (now : Int) (nowIso : String) (url : Option String)
    (fetch : FetchOutcome) (m m1 : RateMap) (ev : Event) (payload : JsVal)
    (n : Int)
    (hA : ev.origin.getD "" = ALLOWED_ORIGIN) (hB : ev.httpMethod = "POST")
    (hrl : isRateLimited reviewWindowMs reviewRateMax m (ipOf ev.xForwardedFor) now
      = (false, m1))
    (hbody : ev.body = some payload) (hnn : isNullish payload = false)
    (ht1 : jsTruthy (getPropOpt payload "username") = true)
    (ht2 : jsTruthy (getPropOpt payload "userId") = true)
    (ht3 : jsTruthy (getPropOpt payload "rating") = true)
    (ht4 : jsTruthy (getPropOpt payload "comment") = true)
    (hp : parseIntJs (getPropOpt payload "rating") = some n)
    (hn1 : 1 ≤ n) (hn5 : n ≤ 5)
    (hclen : 5 ≤ jsLen (jsTrim (jsSlice (jsToString (getPropOpt payload "comment")) 500)))
    (huid : matchesUserIdPattern (jsToString (getPropOpt payload "userId")) = false) :
    reviewHandler now nowIso url fetch m ev =
      .response ⟨400, "Invalid user ID", none⟩ m1 none := by
  have hrange : ¬ (n < 1 ∨ 5 < n) := by omega
  have hclen' : ¬ (jsLen (jsTrim (jsSlice (jsToString (getPropOpt payload "comment")) 500)) < 5) := by
    omega
  simp [reviewHandler, hA, hB, hrl, hbody, hnn, ht1, ht2, ht3, ht4, hp,
    hrange, hclen', huid]

/-- C8, counterexample to the claim as stated: a POST with the allowed
origin whose body is the JSON text `null` parses successfully to a value
that lacks an `embeds` array, yet neither handler answers 400 — the
property access `payload.embeds` (respectively the destructuring of
`payload`) throws a `TypeError` on `null`, so the handlers exit with an
uncaught exception (`crash`), which is not any `response` at all. -/
theorem body_validation_null_counterexample :
    connectionHandler 0 "T" (some "https://hook") .ok []
        (goodEvent (some .null)) = .crash [("9.9.9.9", ⟨1, 0⟩)] ∧
    reviewHandler 0 "T" (some "https://hook") .ok []
        (goodEvent (some .null)) = .crash [("9.9.9.9", ⟨1, 0⟩)] ∧
    HResult.crash (P := ConnPayload) [("9.9.9.9", ⟨1, 0⟩)] ≠
      .response ⟨400, "Invalid payload structure", none⟩
        [("9.9.9.9", ⟨1, 0⟩)] none ∧
    HResult.crash (P := ReviewPayload) [("9.9.9.9", ⟨1, 0⟩)] ≠
      .response ⟨400, "Missing fields", none⟩ [("9.9.9.9", ⟨1, 0⟩)] none :=
  ⟨by decide, by decide, by decide, by decide⟩

/-- C8 as amended: for a POST passing origin, method and rate limiting,
an unparseable body yields a terminal 400 "Invalid JSON" from either
handler with nothing forwarded; for a body parsing to a non-null value,
the connection handler answers 400 "Invalid payload structure" whenever
`embeds` is falsy or not an array, and the review handler answers 400
"Missing fields" whenever one of username, userId, rating, comment is
falsy; a body parsing to JSON `null`, however, makes both handlers throw
(uncaught `TypeError`) instead of returning 400. -/
theorem body_validation :
    (∀ (now : Int) (nowIso : String) (url : Option String)
        (fetch : FetchOutcome) (m m1 : RateMap) (ev : Event),
      ev.origin.getD "" = ALLOWED_ORIGIN →
      ev.httpMethod = "POST" →
      isRateLimited connWindowMs connRateMax m (ipOf ev.xForwardedFor) now
        = (false, m1) →
      ev.body = none →
      connectionHandler now nowIso url fetch m ev =
        .response ⟨400, "Invalid JSON", none⟩ m1 none) ∧
    (∀ (now : Int) (nowIso : String) (url : Option String)
        (fetch : FetchOutcome) (m m1 : RateMap) (ev : Event),
      ev.origin.getD "" = ALLOWED_ORIGIN →
      ev.httpMethod = "POST" →
      isRateLimited reviewWindowMs reviewRateMax m (ipOf ev.xForwardedFor) now
        = (false, m1) →
      ev.body = none →
      reviewHandler now nowIso url fetch m ev =
        .response ⟨400, "Invalid JSON", none⟩ m1 none) ∧
    (∀ (now : Int) (nowIso : String) (url : Option String)
        (fetch : FetchOutcome) (m m1 : RateMap) (ev : Event)
        (payload embedsVal : JsVal),
      ev.origin.getD "" = ALLOWED_ORIGIN →
      ev.httpMethod = "POST" →
      isRateLimited connWindowMs connRateMax m (ipOf ev.xForwardedFor) now
        = (false, m1) →
      ev.body = some payload →
      getProp payload "embeds" = .ok embedsVal →
      jsTruthy embedsVal = false ∨ jsIsArray embedsVal = false →
      connectionHandler now nowIso url fetch m ev =
        .response ⟨400, "Invalid payload structure", none⟩ m1 none) ∧
    (∀ (now : Int) (nowIso : String) (url : Option String)
        (fetch : FetchOutcome) (m m1 : RateMap) (ev : Event) (payload : JsVal),
      ev.origin.getD "" = ALLOWED_ORIGIN →
      ev.httpMethod = "POST" →
      isRateLimited reviewWindowMs reviewRateMax m (ipOf ev.xForwardedFor) now
        = (false, m1) →
      ev.body = some payload →
      isNullish payload = false →
      jsTruthy (getPropOpt payload "username") = false ∨
        jsTruthy (getPropOpt payload "userId") = false ∨
        jsTruthy (getPropOpt payload "rating") = false ∨
        jsTruthy (getPropOpt payload "comment") = false →
      reviewHandler now nowIso url fetch m ev =
        .response ⟨400, "Missing fields", none⟩ m1 none) ∧
    (∀ (now : Int) (nowIso : String) (url : Option String)
        (fetch : FetchOutcome) (m mc mr : RateMap) (ev : Event),
      ev.origin.getD "" = ALLOWED_ORIGIN →
      ev.httpMethod = "POST" →
      isRateLimited connWindowMs connRateMax m (ipOf ev.xForwardedFor) now
        = (false, mc) →
      isRateLimited reviewWindowMs reviewRateMax m (ipOf ev.xForwardedFor) now
        = (false, mr) →
      ev.body = some .null →
      connectionHandler now nowIso url fetch m ev = .crash mc ∧
      reviewHandler now nowIso url fetch m ev = .crash mr) := by
  refine ⟨conn_invalid_json, review_invalid_json, conn_invalid_structure,
    review_missing_fields, ?_⟩
  intro now nowIso url fetch m mc mr ev hA hB hrlc hrlr hbody
  exact ⟨conn_crash_null now nowIso url fetch m mc ev hA hB hrlc hbody,
    review_crash_null now nowIso url fetch m mr ev hA hB hrlr hbody⟩

/-- Witness for C8 (amended): a parsed body `5` lacks an `embeds` array
and gets 400 "Invalid payload structure" from the connection handler. -/
theorem body_validation_witness :
    connectionHandler 3 "T" none .throws [] (goodEvent (some (.num 5))) =
      .response ⟨400, "Invalid payload structure", none⟩
        [("9.9.9.9", ⟨1, 3⟩)] none :=
  body_validation.2.2.1 3 "T" none .throws [] [("9.9.9.9", ⟨1, 3⟩)]
    (goodEvent (some (.num 5))) (.num 5) .undefined
    rfl rfl (by decide) rfl rfl (Or.inl rfl)

/-- When a fully validated review request is forwarded, the forwarded
payload is exactly `reviewBuildPayload` applied to the destructured
fields, the parsed rating and the truncated comment. -/
theorem review_forwarded (now : Int) (nowIso : String) (url : Option String)
    (fetch : FetchOutcome) (m m1 : RateMap) (ev : Event) (payload : JsVal)
    (n : Int) (r : Response) (m2 : RateMap) (p : ReviewPayload)
    (hA : ev.origin.getD "" = ALLOWED_ORIGIN) (hB : ev.httpMethod = "POST")
    (hrl : isRateLimited reviewWindowMs reviewRateMax m (ipOf ev.xForwardedFor) now
      = (false, m1))
    (hbody : ev.body = some payload) (hnn : isNullish payload = false)
    (ht1 : jsTruthy (getPropOpt payload "username") = true)
    (ht2 : jsTruthy (getPropOpt payload "userId") = true)
    (ht3 : jsTruthy (getPropOpt payload "rating") = true)
    (ht4 : jsTruthy (getPropOpt payload "comment") = true)
    (hp : parseIntJs (getPropOpt payload "rating") = some n)
    (hn1 : 1 ≤ n) (hn5 : n ≤ 5)
    (h : reviewHandler now nowIso url fetch m ev = .response r m2 (some p)) :
    p = reviewBuildPayload nowIso (getPropOpt payload "username")
      (getPropOpt payload "userId") (getPropOpt payload "avatarUrl") n
      (jsSlice (jsToString (getPropOpt payload "comment")) 500) := by
  have hrange : ¬ (n < 1 ∨ 5 < n) := by omega
  by_cases hclen :
      jsLen (jsTrim (jsSlice (jsToString (getPropOpt payload "comment")) 500)) < 5
  · simp [reviewHandler, hA, hB, hrl, hbody, hnn, ht1, ht2, ht3,
      ht4, hp, hrange, hclen] at h
  · by_cases huid : matchesUserIdPattern (jsToString (getPropOpt payload "userId")) = true
    · by_cases hurl : url.getD "" = ""
      · simp [reviewHandler, hA, hB, hrl, hbody, hnn, ht1, ht2, ht3,
          ht4, hp, hrange, hclen, huid, hurl] at h
      · cases fetch <;>
          (simp [reviewHandler, hA, hB, hrl, hbody, hnn, ht1,
             ht2, ht3, ht4, hp, hrange, hclen, huid, hurl] at h
           exact h.2.2.symm)
    · simp [reviewHandler, hA, hB, hrl, hbody, hnn, ht1, ht2, ht3,
        ht4, hp, hrange, hclen, huid] at h

/-- When a connection request with an `embeds` array is forwarded, the
forwarded embeds are the client entries mapped through `sanitizeEmbed`. -/
theorem connection_forwarded_embeds (now : Int) (nowIso : String)
    (url : Option String) (fetch : FetchOutcome) (m m1 : RateMap) (ev : Event)
    (payload : JsVal) (xs : List JsVal) (r : Response) (m2 : RateMap)
    (sp : ConnPayload)
    (hA : ev.origin.getD "" = ALLOWED_ORIGIN) (hB : ev.httpMethod = "POST")
    (hrl : isRateLimited connWindowMs connRateMax m (ipOf ev.xForwardedFor) now
      = (false, m1))
    (hbody : ev.body = some payload)
    (hget : getProp payload "embeds" = .ok (.arr xs))
    (h : connectionHandler now nowIso url fetch m ev =
      .response r m2 (some sp)) :
    mapExcept (sanitizeEmbed nowIso) xs = .ok sp.embeds := by
  cases hs : mapExcept (sanitizeEmbed nowIso) xs with
  | error err =>
    simp [connectionHandler, hA, hB, hrl, hbody, hget,
      connectionSanitize, Except.map, jsTruthy, jsIsArray, hs] at h
  | ok l =>
    by_cases hurl : url.getD "" = ""
    · simp [connectionHandler, hA, hB, hrl, hbody, hget,
        connectionSanitize, Except.map, jsTruthy, jsIsArray, hs, hurl] at h
    · cases fetch <;>
        (simp [connectionHandler, hA, hB, hrl, hbody, hget,
           connectionSanitize, Except.map, jsTruthy, jsIsArray, hs, hurl] at h
         obtain ⟨-, -, hpay⟩ := h
         subst hpay
         rfl)

/-- C2, counterexample to "every numeric field is range-checked": a
connection embed whose `color` is 16777216 — one above the 24-bit
maximum 16777215, the largest color the code itself ever emits — is
forwarded downstream with that color unchanged; `color` is only
type-checked (`typeof === 'number'`), never range-checked. -/
theorem bounded_output_color_counterexample :
    connectionHandler 0 "T" (some "https://hook") .ok []
        (goodEvent (some (.obj [("embeds",
          .arr [.obj [("color", .num 16777216)]])]))) =
      .response ⟨200, successBody, some ALLOWED_ORIGIN⟩ [("9.9.9.9", ⟨1, 0⟩)]
        (some ⟨[⟨"", "", 16777216, none, [], "T"⟩]⟩) ∧
    (16777215 : Int) < 16777216 :=
  ⟨by decide, by decide⟩

/-- C2 as amended: every string field of a payload either handler
forwards obeys its hard length bound (connection: title ≤ 256,
description ≤ 4096, thumbnail url ≤ 512, field names ≤ 256 and values
≤ 1024, at most 25 fields; review: Utilisateur ≤ 100, ID ≤ 20, Note ≤ 5
star glyphs, Commentaire ≤ 500, avatar url ≤ 512); the review rating is
range-checked into [1,5] before forwarding, but the connection embed
`color` is only type-checked — a non-number becomes 0 and any number is
forwarded unchanged, with no range bound; an absent or falsy optional
thumbnail/avatar is omitted (`none`, not null-filled). -/
theorem bounded_output :
    (∀ (now : Int) (nowIso : String) (url : Option String)
        (fetch : FetchOutcome) (m m1 : RateMap) (ev : Event)
        (payload : JsVal) (xs : List JsVal),
      ev.origin.getD "" = ALLOWED_ORIGIN →
      ev.httpMethod = "POST" →
      isRateLimited connWindowMs connRateMax m (ipOf ev.xForwardedFor) now
        = (false, m1) →
      ev.body = some payload →
      getProp payload "embeds" = .ok (.arr xs) →
      ∀ r m2 sp, connectionHandler now nowIso url fetch m ev =
          .response r m2 (some sp) →
        ∀ emb ∈ sp.embeds, jsLen emb.title ≤ 256 ∧
          jsLen emb.description ≤ 4096 ∧
          (∀ u, emb.thumbnail = some u → jsLen u ≤ 512) ∧
          emb.fields.length ≤ 25 ∧
          (∀ f ∈ emb.fields, jsLen f.name ≤ 256 ∧ jsLen f.value ≤ 1024)) ∧
    (∀ (now : Int) (nowIso : String) (url : Option String)
        (fetch : FetchOutcome) (m m1 : RateMap) (ev : Event)
        (payload : JsVal) (n : Int),
      ev.origin.getD "" = ALLOWED_ORIGIN →
      ev.httpMethod = "POST" →
      isRateLimited reviewWindowMs reviewRateMax m (ipOf ev.xForwardedFor) now
        = (false, m1) →
      ev.body = some payload →
      isNullish payload = false →
      jsTruthy (getPropOpt payload "username") = true →
      jsTruthy (getPropOpt payload "userId") = true →
      jsTruthy (getPropOpt payload "rating") = true →
      jsTruthy (getPropOpt payload "comment") = true →
      parseIntJs (getPropOpt payload "rating") = some n →
      1 ≤ n → n ≤ 5 →
      ∀ r m2 p, reviewHandler now nowIso url fetch m ev =
          .response r m2 (some p) →
        ∃ emb, p.embeds = [emb] ∧
          ∃ v1 v2 v3 v4, emb.fields = [⟨"Utilisateur", v1, true⟩,
              ⟨"ID", v2, true⟩, ⟨"Note", v3, false⟩,
              ⟨"Commentaire", v4, false⟩] ∧
            jsLen v1 ≤ 100 ∧ jsLen v2 ≤ 20 ∧ jsLen v3 ≤ 5 ∧ jsLen v4 ≤ 500 ∧
            (∀ u, emb.thumbnail = some u → jsLen u ≤ 512) ∧
            (jsTruthy (getPropOpt payload "avatarUrl") = false →
              emb.thumbnail = none)) ∧
    (∀ (nowIso : String) (e : JsVal) (se : SafeEmbed),
      sanitizeEmbed nowIso e = .ok se →
      (∀ c, getPropOpt e "color" = .num c → se.color = c) ∧
      ((∀ c, getPropOpt e "color" ≠ .num c) → se.color = 0) ∧
      (jsTruthy (getPropOpt (getPropOpt e "thumbnail") "url") = false →
        se.thumbnail = none)) := by
  refine ⟨?_, ?_, ?_⟩
  · intro now nowIso url fetch m m1 ev payload xs
      hA hB hrl hbody hget r m2 sp h emb hemb
    have hmap := connection_forwarded_embeds now nowIso url fetch m m1 ev
      payload xs r m2 sp hA hB hrl hbody hget h
    obtain ⟨e, -, hse⟩ := mapExcept_mem (sanitizeEmbed nowIso) xs sp.embeds
      hmap emb hemb
    have hspec := sanitizeEmbed_spec nowIso e emb hse
    exact ⟨hspec.2.2.2.1, hspec.2.2.2.2.1,
      hspec.2.2.2.2.2.2.2.2.1,
      hspec.2.2.2.2.2.2.2.2.2.2.2.1,
      hspec.2.2.2.2.2.2.2.2.2.2.2.2.1⟩
  · intro now nowIso url fetch m m1 ev payload n
      hA hB hrl hbody hnn ht1 ht2 ht3 ht4 hp hn1 hn5 r m2 p h
    have hpay := review_forwarded now nowIso url fetch m m1 ev payload n
      r m2 p hA hB hrl hbody hnn ht1 ht2 ht3 ht4 hp hn1 hn5 h
    subst hpay
    refine ⟨_, rfl, _, _, _, _, rfl, jsLen_jsSlice_le _ _,
      jsLen_jsSlice_le _ _, ?_, jsLen_jsSlice_le _ _, ?_, ?_⟩
    · rw [jsLen_starRepeat]; omega
    · intro u hu
      by_cases hav : jsTruthy (getPropOpt payload "avatarUrl") = true
      · simp only [reviewBuildPayload, hav, if_true, Option.some.injEq] at hu
        exact hu ▸ jsLen_jsSlice_le _ _
      · have : jsTruthy (getPropOpt payload "avatarUrl") = false :=
          Bool.not_eq_true _ ▸ (by simpa using hav)
        simp only [reviewBuildPayload, this, Bool.false_eq_true, if_false] at hu
        simp at hu
    · intro hfalse
      simp [reviewBuildPayload, hfalse]
  · intro nowIso e se hsan
    have hspec := sanitizeEmbed_spec nowIso e se hsan
    exact ⟨hspec.2.2.2.2.2.1, hspec.2.2.2.2.2.2.1,
      hspec.2.2.2.2.2.2.2.1⟩

/-- Witness for C2 (amended): a forwarded review payload at rating 3 and
a short comment satisfies the field bounds; instantiated from the
concrete 200 run. -/
theorem bounded_output_witness :
    ∃ emb, (reviewBuildPayload "T" (.str "Alice") (.str "123456789012345")
        (.str "https://cdn.example/a.png") 3 "Great service!").embeds = [emb] ∧
      ∃ v1 v2 v3 v4, emb.fields = [⟨"Utilisateur", v1, true⟩,
          ⟨"ID", v2, true⟩, ⟨"Note", v3, false⟩,
          ⟨"Commentaire", v4, false⟩] ∧
        jsLen v1 ≤ 100 ∧ jsLen v2 ≤ 20 ∧ jsLen v3 ≤ 5 ∧ jsLen v4 ≤ 500 ∧
        (∀ u, emb.thumbnail = some u → jsLen u ≤ 512) ∧
        (jsTruthy (getPropOpt (reviewBodyWith (.num 3)) "avatarUrl") = false →
          emb.thumbnail = none) :=
  bounded_output.2.1 0 "T" (some "https://hook") .ok [] [("9.9.9.9", ⟨1, 0⟩)]
    (goodEvent (some (reviewBodyWith (.num 3)))) (reviewBodyWith (.num 3)) 3
    rfl rfl (by decide) rfl rfl rfl rfl rfl rfl rfl (by decide) (by decide)
    ⟨200, successBody, some ALLOWED_ORIGIN⟩ [("9.9.9.9", ⟨1, 0⟩)]
    (reviewBuildPayload "T" (.str "Alice") (.str "123456789012345")
      (.str "https://cdn.example/a.png") 3 "Great service!") (by decide)

/-- C10 (validation precedes configuration): the "Webhook not configured"
HTTP 500 is reachable in either handler only when the request has passed
origin, method and rate limiting and its whole payload validation has
succeeded while the configured URL is absent or empty — and, conversely,
any validation failure is answered with its 400 (or, for a null body, an
exception) for every URL value, so a broken body never surfaces the
configuration error. -/
theorem validation_before_config :
    (∀ (now : Int) (nowIso : String) (url : Option String)
        (fetch : FetchOutcome) (m : RateMap) (ev : Event)
        (r : Response) (m2 : RateMap) (fwd : Option ConnPayload),
      connectionHandler now nowIso url fetch m ev = .response r m2 fwd →
      r.statusCode = 500 →
      r = ⟨500, "Webhook not configured", none⟩ ∧ fwd = none ∧
      url.getD "" = "" ∧
      ev.origin.getD "" = ALLOWED_ORIGIN ∧ ev.httpMethod = "POST" ∧
      isRateLimited connWindowMs connRateMax m (ipOf ev.xForwardedFor) now
        = (false, m2) ∧
      ∃ payload xs sp, ev.body = some payload ∧
        getProp payload "embeds" = .ok (.arr xs) ∧
        connectionSanitize nowIso (.arr xs) = .ok sp) ∧
    (∀ (now : Int) (nowIso : String) (url : Option String)
        (fetch : FetchOutcome) (m : RateMap) (ev : Event)
        (r : Response) (m2 : RateMap) (fwd : Option ReviewPayload),
      reviewHandler now nowIso url fetch m ev = .response r m2 fwd →
      r.statusCode = 500 →
      r = ⟨500, "Webhook not configured", none⟩ ∧ fwd = none ∧
      url.getD "" = "" ∧
      ev.origin.getD "" = ALLOWED_ORIGIN ∧ ev.httpMethod = "POST" ∧
      isRateLimited reviewWindowMs reviewRateMax m (ipOf ev.xForwardedFor) now
        = (false, m2) ∧
      ∃ payload, ev.body = some payload ∧ isNullish payload = false ∧
        jsTruthy (getPropOpt payload "username") = true ∧
        jsTruthy (getPropOpt payload "userId") = true ∧
        jsTruthy (getPropOpt payload "rating") = true ∧
        jsTruthy (getPropOpt payload "comment") = true ∧
        ∃ n, parseIntJs (getPropOpt payload "rating") = some n ∧
          1 ≤ n ∧ n ≤ 5 ∧
          5 ≤ jsLen (jsTrim (jsSlice (jsToString (getPropOpt payload "comment")) 500)) ∧
          matchesUserIdPattern (jsToString (getPropOpt payload "userId")) = true) ∧
    (∀ (now : Int) (nowIso : String) (m m1 : RateMap) (ev : Event),
      ev.origin.getD "" = ALLOWED_ORIGIN →
      ev.httpMethod = "POST" →
      isRateLimited connWindowMs connRateMax m (ipOf ev.xForwardedFor) now
        = (false, m1) →
      ev.body = none →
      ∀ url fetch, connectionHandler now nowIso url fetch m ev =
        .response ⟨400, "Invalid JSON", none⟩ m1 none) ∧
    (∀ (now : Int) (nowIso : String) (m m1 : RateMap) (ev : Event)
        (payload embedsVal : JsVal),
      ev.origin.getD "" = ALLOWED_ORIGIN →
      ev.httpMethod = "POST" →
      isRateLimited connWindowMs connRateMax m (ipOf ev.xForwardedFor) now
        = (false, m1) →
      ev.body = some payload →
      getProp payload "embeds" = .ok embedsVal →
      jsTruthy embedsVal = false ∨ jsIsArray embedsVal = false →
      ∀ url fetch, connectionHandler now nowIso url fetch m ev =
        .response ⟨400, "Invalid payload structure", none⟩ m1 none) ∧
    (∀ (now : Int) (nowIso : String) (m m1 : RateMap) (ev : Event),
      ev.origin.getD "" = ALLOWED_ORIGIN →
      ev.httpMethod = "POST" →
      isRateLimited reviewWindowMs reviewRateMax m (ipOf ev.xForwardedFor) now
        = (false, m1) →
      ev.body = none →
      ∀ url fetch, reviewHandler now nowIso url fetch m ev =
        .response ⟨400, "Invalid JSON", none⟩ m1 none) ∧
    (∀ (now : Int) (nowIso : String) (m m1 : RateMap) (ev : Event)
        (payload : JsVal),
      ev.origin.getD "" = ALLOWED_ORIGIN →
      ev.httpMethod = "POST" →
      isRateLimited reviewWindowMs reviewRateMax m (ipOf ev.xForwardedFor) now
        = (false, m1) →
      ev.body = some payload →
      isNullish payload = false →
      jsTruthy (getPropOpt payload "username") = false ∨
        jsTruthy (getPropOpt payload "userId") = false ∨
        jsTruthy (getPropOpt payload "rating") = false ∨
        jsTruthy (getPropOpt payload "comment") = false →
      ∀ url fetch, reviewHandler now nowIso url fetch m ev =
        .response ⟨400, "Missing fields", none⟩ m1 none) ∧
    (∀ (now : Int) (nowIso : String) (m m1 : RateMap) (ev : Event)
        (payload : JsVal),
      ev.origin.getD "" = ALLOWED_ORIGIN →
      ev.httpMethod = "POST" →
      isRateLimited reviewWindowMs reviewRateMax m (ipOf ev.xForwardedFor) now
        = (false, m1) →
      ev.body = some payload →
      isNullish payload = false →
      jsTruthy (getPropOpt payload "username") = true →
      jsTruthy (getPropOpt payload "userId") = true →
      jsTruthy (getPropOpt payload "rating") = true →
      jsTruthy (getPropOpt payload "comment") = true →
      (parseIntJs (getPropOpt payload "rating") = none ∨
        ∃ n, parseIntJs (getPropOpt payload "rating") = some n ∧
          (n < 1 ∨ 5 < n)) →
      ∀ url fetch, reviewHandler now nowIso url fetch m ev =
        .response ⟨400, "Invalid rating", none⟩ m1 none) ∧
    (∀ (now : Int) (nowIso : String) (m m1 : RateMap) (ev : Event)
        (payload : JsVal) (n : Int),
      ev.origin.getD "" = ALLOWED_ORIGIN →
      ev.httpMethod = "POST" →
      isRateLimited reviewWindowMs reviewRateMax m (ipOf ev.xForwardedFor) now
        = (false, m1) →
      ev.body = some payload →
      isNullish payload = false →
      jsTruthy (getPropOpt payload "username") = true →
      jsTruthy (getPropOpt payload "userId") = true →
      jsTruthy (getPropOpt payload "rating") = true →
      jsTruthy (getPropOpt payload "comment") = true →
      parseIntJs (getPropOpt payload "rating") = some n →
      1 ≤ n → n ≤ 5 →
      jsLen (jsTrim (jsSlice (jsToString (getPropOpt payload "comment")) 500)) < 5 →
      ∀ url fetch, reviewHandler now nowIso url fetch m ev =
        .response ⟨400, "Comment too short", none⟩ m1 none) := by
  refine ⟨?_, ?_, ?_, ?_, ?_, ?_, ?_, ?_⟩
  · intro now nowIso url fetch m ev r m2 fwd h h500
    by_cases hA : ev.origin.getD "" = ALLOWED_ORIGIN
    case neg =>
      simp [connectionHandler, hA] at h
      obtain ⟨h1, -, -⟩ := h
      subst h1
      simp at h500
    by_cases hB : ev.httpMethod = "POST"
    case neg =>
      simp [connectionHandler, hA, hB] at h
      obtain ⟨h1, -, -⟩ := h
      subst h1
      simp at h500
    rcases hrl : isRateLimited connWindowMs connRateMax m (ipOf ev.xForwardedFor) now
      with ⟨limited, m1⟩
    cases limited
    on_goal 2 =>
      simp [connectionHandler, hA, hB, hrl] at h
      obtain ⟨h1, -, -⟩ := h
      subst h1
      simp at h500
    cases hbody : ev.body with
    | none =>
      simp [connectionHandler, hA, hB, hrl, hbody] at h
      obtain ⟨h1, -, -⟩ := h
      subst h1
      simp at h500
    | some payload =>
      cases hget : getProp payload "embeds" with
      | error u =>
        simp [connectionHandler, hA, hB, hrl, hbody, hget] at h
      | ok embedsVal =>
        cases embedsVal with
        | arr xs =>
          cases hs : mapExcept (sanitizeEmbed nowIso) xs with
          | error u =>
            simp [connectionHandler, hA, hB, hrl, hbody, hget,
              connectionSanitize, Except.map, jsTruthy, jsIsArray, hs] at h
          | ok l =>
            by_cases hurl : url.getD "" = ""
            · simp [connectionHandler, hA, hB, hrl, hbody, hget,
                connectionSanitize, Except.map, jsTruthy, jsIsArray, hs, hurl] at h
              obtain ⟨h1, hm, hf⟩ := h
              subst h1
              refine ⟨rfl, hf.symm, hurl, hA, hB, by rw [hm],
                payload, xs, ⟨l⟩, rfl, hget, ?_⟩
              simp [connectionSanitize, Except.map, hs]
            · cases fetch <;>
                (simp [connectionHandler, hA, hB, hrl, hbody, hget,
                   connectionSanitize, Except.map, jsTruthy, jsIsArray,
                   hs, hurl] at h
                 obtain ⟨h1, -, -⟩ := h
                 subst h1
                 simp at h500)
        | _ =>
          simp [connectionHandler, hA, hB, hrl, hbody, hget,
            jsTruthy, jsIsArray] at h
          obtain ⟨h1, -, -⟩ := h
          subst h1
          simp at h500
  · intro now nowIso url fetch m ev r m2 fwd h h500
    by_cases hA : ev.origin.getD "" = ALLOWED_ORIGIN
    case neg =>
      simp [reviewHandler, hA] at h
      obtain ⟨h1, -, -⟩ := h
      subst h1
      simp at h500
    by_cases hB : ev.httpMethod = "POST"
    case neg =>
      simp [reviewHandler, hA, hB] at h
      obtain ⟨h1, -, -⟩ := h
      subst h1
      simp at h500
    rcases hrl : isRateLimited reviewWindowMs reviewRateMax m (ipOf ev.xForwardedFor) now
      with ⟨limited, m1⟩
    cases limited
    on_goal 2 =>
      simp [reviewHandler, hA, hB, hrl] at h
      obtain ⟨h1, -, -⟩ := h
      subst h1
      simp at h500
    cases hbody : ev.body with
    | none =>
      simp [reviewHandler, hA, hB, hrl, hbody] at h
      obtain ⟨h1, -, -⟩ := h
      subst h1
      simp at h500
    | some payload =>
      by_cases hnn : isNullish payload = true
      case pos =>
        simp [reviewHandler, hA, hB, hrl, hbody, hnn] at h
      have hnn' : isNullish payload = false := by
        cases hx : isNullish payload
        · rfl
        · exact absurd hx hnn
      by_cases ht1 : jsTruthy (getPropOpt payload "username") = true
      case neg =>
        have hb : jsTruthy (getPropOpt payload "username") = false := by
          cases hx : jsTruthy (getPropOpt payload "username")
          · rfl
          · exact absurd hx ht1
        rw [review_missing_fields now nowIso url fetch m m1 ev payload
          hA hB hrl hbody hnn' (Or.inl hb)] at h
        simp only [HResult.response.injEq] at h
        obtain ⟨h1, -, -⟩ := h
        subst h1
        simp at h500
      by_cases ht2 : jsTruthy (getPropOpt payload "userId") = true
      case neg =>
        have hb : jsTruthy (getPropOpt payload "userId") = false := by
          cases hx : jsTruthy (getPropOpt payload "userId")
          · rfl
          · exact absurd hx ht2
        rw [review_missing_fields now nowIso url fetch m m1 ev payload
          hA hB hrl hbody hnn' (Or.inr (Or.inl hb))] at h
        simp only [HResult.response.injEq] at h
        obtain ⟨h1, -, -⟩ := h
        subst h1
        simp at h500
      by_cases ht3 : jsTruthy (getPropOpt payload "rating") = true
      case neg =>
        have hb : jsTruthy (getPropOpt payload "rating") = false := by
          cases hx : jsTruthy (getPropOpt payload "rating")
          · rfl
          · exact absurd hx ht3
        rw [review_missing_fields now nowIso url fetch m m1 ev payload
          hA hB hrl hbody hnn' (Or.inr (Or.inr (Or.inl hb)))] at h
        simp only [HResult.response.injEq] at h
        obtain ⟨h1, -, -⟩ := h
        subst h1
        simp at h500
      by_cases ht4 : jsTruthy (getPropOpt payload "comment") = true
      case neg =>
        have hb : jsTruthy (getPropOpt payload "comment") = false := by
          cases hx : jsTruthy (getPropOpt payload "comment")
          · rfl
          · exact absurd hx ht4
        rw [review_missing_fields now nowIso url fetch m m1 ev payload
          hA hB hrl hbody hnn' (Or.inr (Or.inr (Or.inr hb)))] at h
        simp only [HResult.response.injEq] at h
        obtain ⟨h1, -, -⟩ := h
        subst h1
        simp at h500
      cases hp : parseIntJs (getPropOpt payload "rating") with
      | none =>
        rw [review_rating_nan now nowIso url fetch m m1 ev payload
          hA hB hrl hbody hnn' ht1 ht2 ht3 ht4 hp] at h
        simp only [HResult.response.injEq] at h
        obtain ⟨h1, -, -⟩ := h
        subst h1
        simp at h500
      | some n =>
        by_cases hrange : n < 1 ∨ 5 < n
        case pos =>
          rw [review_rating_range now nowIso url fetch m m1 ev payload n
            hA hB hrl hbody hnn' ht1 ht2 ht3 ht4 hp hrange] at h
          simp only [HResult.response.injEq] at h
          obtain ⟨h1, -, -⟩ := h
          subst h1
          simp at h500
        have hn1 : 1 ≤ n := by omega
        have hn5 : n ≤ 5 := by omega
        by_cases hclen :
            jsLen (jsTrim (jsSlice (jsToString (getPropOpt payload "comment")) 500)) < 5
        case pos =>
          rw [review_comment_short now nowIso url fetch m m1 ev payload n
            hA hB hrl hbody hnn' ht1 ht2 ht3 ht4 hp hn1 hn5 hclen] at h
          simp only [HResult.response.injEq] at h
          obtain ⟨h1, -, -⟩ := h
          subst h1
          simp at h500
        by_cases huid : matchesUserIdPattern (jsToString (getPropOpt payload "userId")) = true
        case neg =>
          have hb : matchesUserIdPattern (jsToString (getPropOpt payload "userId")) = false := by
            cases hx : matchesUserIdPattern (jsToString (getPropOpt payload "userId"))
            · rfl
            · exact absurd hx huid
          rw [review_bad_userid now nowIso url fetch m m1 ev payload n
            hA hB hrl hbody hnn' ht1 ht2 ht3 ht4 hp hn1 hn5 (by omega) hb] at h
          simp only [HResult.response.injEq] at h
          obtain ⟨h1, -, -⟩ := h
          subst h1
          simp at h500
        by_cases hurl : url.getD "" = ""
        case pos =>
          have hrange' : ¬ (n < 1 ∨ 5 < n) := by omega
          simp [reviewHandler, hA, hB, hrl, hbody, hnn', ht1, ht2, ht3, ht4,
            hp, hrange', hclen, huid, hurl] at h
          obtain ⟨h1, hm, hf⟩ := h
          subst h1
          exact ⟨rfl, hf.symm, hurl, hA, hB, by rw [hm], payload, rfl, hnn',
            ht1, ht2, ht3, ht4, n, hp, hn1, hn5, by omega, huid⟩
        have hrange' : ¬ (n < 1 ∨ 5 < n) := by omega
        cases fetch <;>
          (simp [reviewHandler, hA, hB, hrl, hbody, hnn', ht1, ht2, ht3, ht4,
             hp, hrange', hclen, huid, hurl] at h
           obtain ⟨h1, -, -⟩ := h
           subst h1
           simp at h500)
  · intro now nowIso m m1 ev hA hB hrl hbody url fetch
    exact conn_invalid_json now nowIso url fetch m m1 ev hA hB hrl hbody
  · intro now nowIso m m1 ev payload embedsVal hA hB hrl hbody hget hbad url fetch
    exact conn_invalid_structure now nowIso url fetch m m1 ev payload embedsVal
      hA hB hrl hbody hget hbad
  · intro now nowIso m m1 ev hA hB hrl hbody url fetch
    exact review_invalid_json now nowIso url fetch m m1 ev hA hB hrl hbody
  · intro now nowIso m m1 ev payload hA hB hrl hbody hnn hbad url fetch
    exact review_missing_fields now nowIso url fetch m m1 ev payload
      hA hB hrl hbody hnn hbad
  · intro now nowIso m m1 ev payload hA hB hrl hbody hnn ht1 ht2 ht3 ht4 hbad url fetch
    rcases hbad with hp | ⟨n, hp, hr⟩
    · exact review_rating_nan now nowIso url fetch m m1 ev payload
        hA hB hrl hbody hnn ht1 ht2 ht3 ht4 hp
    · exact review_rating_range now nowIso url fetch m m1 ev payload n
        hA hB hrl hbody hnn ht1 ht2 ht3 ht4 hp hr
  · intro now nowIso m m1 ev payload n hA hB hrl hbody hnn ht1 ht2 ht3 ht4
      hp hn1 hn5 hclen url fetch
    exact review_comment_short now nowIso url fetch m m1 ev payload n
      hA hB hrl hbody hnn ht1 ht2 ht3 ht4 hp hn1 hn5 hclen

/-- Witness for C10: with an unset URL, a review body whose rating is
invalid still gets its 400 — never the configuration 500. -/
theorem validation_before_config_witness :
    reviewHandler 0 "T" none .ok [] (goodEvent (some (reviewBodyWith (.num 9)))) =
      .response ⟨400, "Invalid rating", none⟩ [("9.9.9.9", ⟨1, 0⟩)] none :=
  validation_before_config.2.2.2.2.2.2.1 0 "T" [] [("9.9.9.9", ⟨1, 0⟩)]
    (goodEvent (some (reviewBodyWith (.num 9)))) (reviewBodyWith (.num 9))
    rfl rfl (by decide) rfl rfl rfl rfl rfl rfl
    (Or.inr ⟨9, rfl, Or.inr (by decide)⟩) none .ok

end DevCenter
